import Mathlib

/-! KONNEKTING device library: provisioning protocol engine.

Shallow embedding of `src/src/KonnektingDevice.cpp`.

* Bytes, words and counters are natural numbers; conversions to `uint8_t` and
  `uint16_t` are written `% 256` and `% 65536` where the source converts.
* `int` is taken wide enough to hold every 16-bit address plus a byte offset
  (the 32-bit targets of the library), so `int` arithmetic is exact.
* The build is the one selected by the `#else` branches of the source
  (neither `ESP8266`/`ESP32` nor `ARDUINO_ARCH_SAMD`).
* The device object is the record `KonnektingDevice`; everything outside
  the object (persistent memory, bus, indicator, restart) is the record `World`.
* A method that can reach `reboot()` or store outside a local array yields an
  `Exit` next to the device and the world: whether the call returns, and where it
  ends when it does not.
-/

namespace Konnekting

/-! ## Constants of the missing header -/

/-- Constants that `KonnektingDevice.h` defines (the header is not among the
sources): they are parameters of the embedding.  `caseLabels` records that the
seven labels of the `switch (msgType)` in `internalKnxEvents` are pairwise
different, which the C++ compiler enforces. -/
structure Constants where
  PROTOCOLVERSION : Nat
  MSGTYPE_ACK : Nat
  MSGTYPE_PROPERTY_PAGE_READ : Nat
  MSGTYPE_PROPERTY_PAGE_RESPONSE : Nat
  MSGTYPE_RESTART : Nat
  MSGTYPE_PROGRAMMING_MODE_WRITE : Nat
  MSGTYPE_PROGRAMMING_MODE_READ : Nat
  MSGTYPE_PROGRAMMING_MODE_RESPONSE : Nat
  MSGTYPE_MEMORY_WRITE : Nat
  MSGTYPE_MEMORY_READ : Nat
  MSGTYPE_MEMORY_RESPONSE : Nat
  ACK : Nat
  ERR_CODE_OK : Nat
  SYSTEM_TYPE_DEFAULT : Nat
  EEPROM_DEVICE_FLAGS : Int
  EEPROM_INDIVIDUALADDRESS_HI : Int
  EEPROM_INDIVIDUALADDRESS_LO : Int
  EEPROM_COMOBJECTTABLE_START : Int
  /-- the macro `P_ADDR(area, line, busdevice)` of the bus library -/
  P_ADDR : Nat → Nat → Nat → Nat
  caseLabels : List.Nodup
    [MSGTYPE_ACK, MSGTYPE_PROPERTY_PAGE_READ, MSGTYPE_RESTART,
     MSGTYPE_PROGRAMMING_MODE_WRITE, MSGTYPE_PROGRAMMING_MODE_READ,
     MSGTYPE_MEMORY_WRITE, MSGTYPE_MEMORY_READ]

/-- Modelled from the spec: `MSG_LENGTH` of the missing header, the fixed frame
size of 14 bytes (the response buffers of the source are `byte response[14]`). -/
def MSG_LENGTH : Nat := 14

/-- The reserved provisioning object index (`#define PROGCOMOBJ_INDEX 255`). -/
def PROGCOMOBJ_INDEX : Nat := 255

/-- Modelled from the spec: header macro `HI__`, the high byte of a 16-bit
big-endian value. -/
def HI__ (x : Nat) : Nat := x / 256 % 256

/-- Modelled from the spec: header macro `__LO`, the low byte of a 16-bit
big-endian value. -/
def __LO (x : Nat) : Nat := x % 256

/-- Modelled from the spec: header macro `__WORD`, the 16-bit value with the
given high and low byte (big-endian). -/
def __WORD (hi lo : Nat) : Nat := (hi * 256 + lo) % 65536

/-! ## Data model -/

/-- An inbound frame as `Knx.read` delivers it. -/
abbrev Frame := List Nat

/-- C array read `msg[i]` of the inbound buffer. -/
def byteAt (msg : Frame) (i : Nat) : Nat := msg.getD i 0

/-- A well-formed inbound frame: 14 entries, each one a byte. -/
def isFrame (msg : Frame) : Prop := msg.length = 14 ∧ ∀ b ∈ msg, b < 256

instance (msg : Frame) : Decidable (isFrame msg) := by
  unfold isFrame; infer_instance

/-- A local byte array such as `byte response[14]`: index to content, `none` for
a cell that no statement has assigned yet (an indeterminate value in C++). -/
abbrev Buf := Nat → Option Nat

/-- A freshly declared, unassigned local buffer. -/
def Buf.fresh : Buf := fun _ => none

/-- The assignment `buf[i] = v` at an index inside the array. -/
def Buf.set (buf : Buf) (i : Nat) (v : Nat) : Buf :=
  fun j => if j = i then some v else buf j

/-- The assignment `buf[i] = v` to an array of `size` elements at a computed
index: the new content for an index inside the array, `none` for an index
outside, where C++ defines no behaviour. -/
def Buf.store (buf : Buf) (size i v : Nat) : Option Buf :=
  if i < size then some (buf.set i v) else none

/-- How a call of a method ends. -/
inductive Exit (α : Type) where
  /-- the call returns to its caller, with the value it returns -/
  | returned (value : α) : Exit α
  /-- the call reaches `reboot()`, which restarts the program and never returns -/
  | restarted : Exit α
  /-- the call stores outside an array; C++ defines no behaviour from there on -/
  | undefined : Exit α
  deriving DecidableEq

/-- The end of a caller whose remaining statements, after a call that ended with
`e`, only return `b`: it returns `b` when the call returned, and ends where the
call ended otherwise. -/
def Exit.andReturn {α β : Type} (e : Exit α) (b : β) : Exit β :=
  match e with
  | Exit.returned _ => Exit.returned b
  | Exit.restarted => Exit.restarted
  | Exit.undefined => Exit.undefined

/-- The 14 cells that `Knx.write` copies out of a buffer. -/
def Buf.frame (buf : Buf) : List (Option Nat) := (List.range 14).map buf

/-- Fields of the `KonnektingDevice` object.  A function pointer is
represented by whether it is non-`NULL`. -/
structure KonnektingDevice where
  _initialized : Bool
  _manufacturerID : Nat
  _deviceID : Nat
  _revisionID : Nat
  _deviceFlags : Nat
  _individualAddress : Nat
  _paramTableStartindex : Int
  _numberOfParams : Int
  _paramSizeList : List Nat
  _progState : Bool
  _rebootRequired : Bool
  _lastProgbtn : Nat
  _progbtnCount : Nat
  _progLED : Int
  _progButton : Int
  _progIndicatorFunc : Bool
  _eepromCommitFunc : Bool

/-- Everything outside the device object.  The persistent memory behind
`memoryRead`/`memoryWrite` (the registered access functions, or the built-in
EEPROM when none is registered) is one byte-addressed memory `eeprom`; the other
fields log the calls made to the collaborators, oldest first. -/
structure World where
  /-- content of the persistent store, by address -/
  eeprom : Int → Nat
  /-- log of `memoryWrite` calls: address and data -/
  writes : List (Int × Nat)
  /-- number of calls of the registered commit function -/
  commits : Nat
  /-- value of the provisioning object, which `Knx.read` copies out -/
  rx : Frame
  /-- frames handed to `Knx.write(PROGCOMOBJ_INDEX, ..)` -/
  sent : List (List (Option Nat))
  /-- number of restarts of the program that `reboot()` has made -/
  restarts : Nat
  /-- arguments of the calls of the registered indicator function -/
  indicator : List Bool
  /-- The `digitalWrite` calls: pin and level -/
  led : List (Int × Bool)
  /-- current reading of `millis()` -/
  millis : Nat
  /-- answer of `Knx.getNumberOfComObjects()` -/
  numberOfComObjects : Nat
  /-- Bus call `Knx.setComObjectAddress` calls: index, address, active -/
  comObjectAddress : List (Nat × Nat × Bool)
  /-- addresses handed to `Knx.begin` -/
  begun : List Nat
  /-- whether `Knx.begin` answers `KNX_DEVICE_OK` -/
  knxDeviceOk : Bool
  /-- arguments of the calls of the application handler `knxEvents` -/
  appEvents : List Nat
  /-- byte that a read `_paramSizeList[index]` finds in memory when `index` lies
  outside the table (the source does not check the index) -/
  outside : Int → Nat

/-! ## Collaborators -/

/-- Bus call `Knx.write(PROGCOMOBJ_INDEX, response)`: hands the 14 cells to the bus. -/
def knxWrite (response : Buf) (w : World) : World :=
  { w with sent := w.sent ++ [response.frame] }

/-- Bus call `Knx.read(PROGCOMOBJ_INDEX, buffer)`. -/
def knxRead (w : World) : Frame := w.rx

/-- Pin write `digitalWrite(pin, state)`. -/
def digitalWrite (pin : Int) (state : Bool) (w : World) : World :=
  { w with led := w.led ++ [(pin, state)] }

/-- Bus call `Knx.setComObjectAddress(index, addr, active)`. -/
def knxSetComObjectAddress (index addr : Nat) (active : Bool) (w : World) : World :=
  { w with comObjectAddress := w.comObjectAddress ++ [(index, addr, active)] }

/-- Bus call `Knx.begin(serial, address)`. -/
def knxBegin (address : Nat) (w : World) : World :=
  { w with begun := w.begun ++ [address] }

/-- Method `KonnektingDevice::reboot`: `Knx.end()` followed by the reset sequence
of the target (`jmp 0`, a system reset, or an endless loop until the watchdog
fires).  The call never returns: it ends with `Exit.restarted`, the device
fields being those at the call and the world having one more restart. -/
def reboot {α : Type} (d : KonnektingDevice) (w : World) :
    Exit α × KonnektingDevice × World :=
  (Exit.restarted, d, { w with restarts := w.restarts + 1 })

/-! ## Persistent store adapter -/

/-- Method `KonnektingDevice::memoryRead`. -/
def memoryRead (w : World) (index : Int) : Nat := w.eeprom index

/-- Method `KonnektingDevice::memoryWrite`: stores the byte and sets
`_rebootRequired`. -/
def memoryWrite (index : Int) (data : Nat) (d : KonnektingDevice) (w : World) :
    KonnektingDevice × World :=
  ({ d with _rebootRequired := true },
   { w with eeprom := fun a => if a = index then data else w.eeprom a,
            writes := w.writes ++ [(index, data)] })

/-- Method `KonnektingDevice::memoryCommit`: calls the commit function when one is
registered. -/
def memoryCommit (d : KonnektingDevice) (w : World) : World :=
  if d._eepromCommitFunc then { w with commits := w.commits + 1 } else w

/-! ## Programming-mode state -/

/-- Method `KonnektingDevice::setProgLed`. -/
def setProgLed (state : Bool) (d : KonnektingDevice) (w : World) : World :=
  if d._progIndicatorFunc then { w with indicator := w.indicator ++ [state] }
  else digitalWrite d._progLED state w

/-- Method `KonnektingDevice::setProgState`. -/
def setProgState (state : Bool) (d : KonnektingDevice) (w : World) :
    KonnektingDevice × World :=
  let d1 := { d with _progState := state }
  let w1 := setProgLed state d1 w
  let w2 := if d1._progIndicatorFunc then w1 else digitalWrite d1._progLED state w1
  (d1, w2)

/-- Method `KonnektingDevice::isProgState`. -/
def isProgState (d : KonnektingDevice) : Bool := d._progState

/-- Method `KonnektingDevice::toggleProgState` (with `REBOOT_BUTTON` defined).  Both
reads of `millis()` in one call deliver the same 32-bit reading, the
difference `millis() - _lastProgbtn` is taken in `unsigned long`, and the
counter `_progbtnCount` (declared in the missing header) counts without
wrap-around.  `rest` stands for the statements after the `REBOOT_BUTTON` block;
the call ends at the first `reboot()` it reaches. -/
def toggleProgState (d : KonnektingDevice) (w : World) :
    Exit Unit × KonnektingDevice × World :=
  let now := w.millis % 2 ^ 32
  let rest := fun (d1 : KonnektingDevice) =>
    let d2 := { d1 with _lastProgbtn := now }
    let (d3, w3) := setProgState (!d2._progState) d2 w
    if d3._rebootRequired then reboot d3 w3 else (Exit.returned (), d3, w3)
  if (now + 2 ^ 32 - d._lastProgbtn % 2 ^ 32) % 2 ^ 32 < 300 then
    let d1 := { d with _progbtnCount := d._progbtnCount + 1 }
    if d1._progbtnCount = 3 then reboot d1 w else rest d1
  else rest { d with _progbtnCount := 1 }

/-! ## Startup -/

/-- Method `KonnektingDevice::isFactorySetting`. -/
def isFactorySetting (d : KonnektingDevice) : Bool := d._deviceFlags == 0xff

/-- Method `KonnektingDevice::internalInit`, which both `init` overloads call with
their identity arguments.  The call returns when `Knx.begin` answers
`KNX_DEVICE_OK` and ends in `reboot()` otherwise. -/
def internalInit (k : Constants) (manufacturerID deviceID revisionID : Nat)
    (d : KonnektingDevice) (w : World) : Exit Unit × KonnektingDevice × World :=
  let d1 := { d with _initialized := true, _manufacturerID := manufacturerID,
                     _deviceID := deviceID, _revisionID := revisionID,
                     _lastProgbtn := 0, _progbtnCount := 0 }
  let (d2, w2) := setProgState false d1 w
  let d3 := { d2 with
    _paramTableStartindex := k.EEPROM_COMOBJECTTABLE_START + (w2.numberOfComObjects : Int) * 3 }
  let d4 := { d3 with _deviceFlags := memoryRead w2 k.EEPROM_DEVICE_FLAGS }
  let d5 := { d4 with _individualAddress := k.P_ADDR 1 1 254 }
  let (d6, w6) :=
    if !isFactorySetting d5 then
      let hiAddr := memoryRead w2 k.EEPROM_INDIVIDUALADDRESS_HI
      let loAddr := memoryRead w2 k.EEPROM_INDIVIDUALADDRESS_LO
      let d' := { d5 with _individualAddress := __WORD hiAddr loAddr }
      let w' := (List.range w2.numberOfComObjects).foldl
        (fun (v : World) (i : Nat) =>
          let hi := memoryRead v (k.EEPROM_COMOBJECTTABLE_START + (i : Int) * 3)
          let lo := memoryRead v (k.EEPROM_COMOBJECTTABLE_START + (i : Int) * 3 + 1)
          let settings := memoryRead v (k.EEPROM_COMOBJECTTABLE_START + (i : Int) * 3 + 2)
          let comObjAddr := (hi * 256 + lo) % 65536
          let active := (settings &&& 0x80) == 0x80
          knxSetComObjectAddress i comObjAddr active v) w2
      (d', w')
    else (d5, w2)
  let w7 := knxBegin d6._individualAddress w6
  if w7.knxDeviceOk then (Exit.returned (), d6, w7) else reboot d6 w7

/-- Method `KonnektingDevice::isReadyForApplication`. -/
def isReadyForApplication (d : KonnektingDevice) : Bool :=
  !isProgState d && !isFactorySetting d

/-! ## Parameter layout -/

/-- Modelled from the spec: `PARAM_UINT8` of the missing header, a 1-byte
parameter. -/
def PARAM_UINT8 : Nat := 1

/-- Modelled from the spec: `PARAM_INT8` of the missing header, a 1-byte
parameter. -/
def PARAM_INT8 : Nat := 1

/-- Modelled from the spec: `PARAM_UINT16` of the missing header, a 2-byte
parameter. -/
def PARAM_UINT16 : Nat := 2

/-- Modelled from the spec: `PARAM_INT16` of the missing header, a 2-byte
parameter. -/
def PARAM_INT16 : Nat := 2

/-- Modelled from the spec: `PARAM_UINT32` of the missing header, a 4-byte
parameter. -/
def PARAM_UINT32 : Nat := 4

/-- Modelled from the spec: `PARAM_INT32` of the missing header, a 4-byte
parameter. -/
def PARAM_INT32 : Nat := 4

/-- Modelled from the spec: `PARAM_STRING11` of the missing header, the 11-byte
fixed-length text. -/
def PARAM_STRING11 : Nat := 11

/-- The array read `_paramSizeList[index]`: the table entry for an index inside
the table, the byte lying in memory at that place otherwise. -/
def paramSizeListAt (d : KonnektingDevice) (w : World) (index : Int) : Nat :=
  if 0 ≤ index ∧ index < d._paramSizeList.length then d._paramSizeList.getD index.toNat 0
  else w.outside index

/-- Method `KonnektingDevice::getParamSize`. -/
def getParamSize (d : KonnektingDevice) (w : World) (index : Int) : Nat :=
  paramSizeListAt d w index

/-- Method `KonnektingDevice::calcParamSkipBytes`. -/
def calcParamSkipBytes (d : KonnektingDevice) (w : World) (index : Int) : Int :=
  if index > 0 then
    (List.range index.toNat).foldl
      (fun (skipBytes : Int) (i : Nat) => skipBytes + (getParamSize d w (i : Int) : Int)) 0
  else 0

/-- Method `KonnektingDevice::getParamValue`: `value` is the caller's buffer. -/
def getParamValue (d : KonnektingDevice) (w : World) (index : Int) (value : Buf) : Buf :=
  if index > d._numberOfParams - 1 then value
  else
    let skipBytes := calcParamSkipBytes d w index
    let paramLen := getParamSize d w index
    (List.range paramLen).foldl
      (fun (v : Buf) (i : Nat) =>
        v.set i (memoryRead w (d._paramTableStartindex + skipBytes + (i : Int)))) value

/-- Conversion of an unsigned value to the signed integer type of `bits` bits
(two's complement). -/
def toSigned (bits : Nat) (v : Nat) : Int :=
  if v % 2 ^ bits < 2 ^ (bits - 1) then (v % 2 ^ bits : Nat) else (v % 2 ^ bits : Nat) - 2 ^ bits

/-- Method `KonnektingDevice::getUINT8Param`.  The result is `none` when the
returned cell of the local buffer was never assigned. -/
def getUINT8Param (d : KonnektingDevice) (w : World) (index : Int) : Option Nat :=
  if getParamSize d w index ≠ PARAM_UINT8 then some 0
  else
    let paramValue := getParamValue d w index Buf.fresh
    paramValue 0

/-- Method `KonnektingDevice::getINT8Param`. -/
def getINT8Param (d : KonnektingDevice) (w : World) (index : Int) : Option Int :=
  if getParamSize d w index ≠ PARAM_INT8 then some 0
  else
    let paramValue := getParamValue d w index Buf.fresh
    (paramValue 0).map (toSigned 8)

/-- Method `KonnektingDevice::getUINT16Param`. -/
def getUINT16Param (d : KonnektingDevice) (w : World) (index : Int) : Option Nat :=
  if getParamSize d w index ≠ PARAM_UINT16 then some 0
  else
    let paramValue := getParamValue d w index Buf.fresh
    match paramValue 0, paramValue 1 with
    | some b0, some b1 => some ((b0 * 256 + b1) % 65536)
    | _, _ => none

/-- Method `KonnektingDevice::getINT16Param`. -/
def getINT16Param (d : KonnektingDevice) (w : World) (index : Int) : Option Int :=
  if getParamSize d w index ≠ PARAM_INT16 then some 0
  else
    let paramValue := getParamValue d w index Buf.fresh
    match paramValue 0, paramValue 1 with
    | some b0, some b1 => some (toSigned 16 (b0 * 256 + b1))
    | _, _ => none

/-- Method `KonnektingDevice::getUINT32Param`. -/
def getUINT32Param (d : KonnektingDevice) (w : World) (index : Int) : Option Nat :=
  if getParamSize d w index ≠ PARAM_UINT32 then some 0
  else
    let paramValue := getParamValue d w index Buf.fresh
    match paramValue 0, paramValue 1, paramValue 2, paramValue 3 with
    | some b0, some b1, some b2, some b3 =>
      some ((b0 * 2 ^ 24 + b1 * 2 ^ 16 + b2 * 2 ^ 8 + b3) % 2 ^ 32)
    | _, _, _, _ => none

/-- Method `KonnektingDevice::getINT32Param`. -/
def getINT32Param (d : KonnektingDevice) (w : World) (index : Int) : Option Int :=
  if getParamSize d w index ≠ PARAM_INT32 then some 0
  else
    let paramValue := getParamValue d w index Buf.fresh
    match paramValue 0, paramValue 1, paramValue 2, paramValue 3 with
    | some b0, some b1, some b2, some b3 =>
      some (toSigned 32 (b0 * 2 ^ 24 + b1 * 2 ^ 16 + b2 * 2 ^ 8 + b3))
    | _, _, _, _ => none

/-- The copy loop of `getSTRING11Param`, `n` rounds from index `i` on: stop at a
`0x00` byte, append any other byte to `ret`. -/
def string11Loop (paramValue : Buf) : Nat → Nat → List Nat → Option (List Nat)
  | 0, _, ret => some ret
  | n + 1, i, ret =>
    match paramValue i with
    | none => none
    | some c => if c = 0x00 then some ret else string11Loop paramValue n (i + 1) (ret ++ [c])

/-- Method `KonnektingDevice::getSTRING11Param`: the text as the list of its
character codes. -/
def getSTRING11Param (d : KonnektingDevice) (w : World) (index : Int) :
    Option (List Nat) :=
  if getParamSize d w index ≠ PARAM_STRING11 then some []
  else
    let paramValue := getParamValue d w index Buf.fresh
    string11Loop paramValue PARAM_STRING11 0 []

/-- Method `KonnektingDevice::getFreeEepromOffset`. -/
def getFreeEepromOffset (d : KonnektingDevice) (w : World) : Int :=
  (List.range d._numberOfParams.toNat).foldl
    (fun (offset : Int) (i : Nat) => offset + (paramSizeListAt d w (i : Int) : Int))
    d._paramTableStartindex

/-! ## Protocol engine -/

/-- Method `KonnektingDevice::fillEmpty`: `for (i = startIndex; i < MSG_LENGTH; i++)
msg[i] = 0xFF`. -/
def fillEmpty (msg : Buf) (startIndex : Nat) : Buf :=
  (List.range' startIndex (MSG_LENGTH - startIndex)).foldl
    (fun b i => b.set i 0xFF) msg

/-- Method `KonnektingDevice::sendAck`. -/
def sendAck (k : Constants) (ackType errorCode : Nat) (w : World) : World :=
  let response := Buf.fresh
  let response := response.set 0 k.PROTOCOLVERSION
  let response := response.set 1 k.MSGTYPE_ACK
  let response := response.set 2 ackType
  let response := response.set 3 errorCode
  let response := fillEmpty response 4
  knxWrite response w

/-- Method `KonnektingDevice::handleMsgPropertyPageRead`.  The buffer is written only
in `case 0x00`; `Knx.write` follows the `switch` in every case. -/
def handleMsgPropertyPageRead (k : Constants) (msg : Frame)
    (d : KonnektingDevice) (w : World) : World :=
  if d._individualAddress = __WORD (byteAt msg 2) (byteAt msg 3) then
    let response := Buf.fresh
    let response :=
      if byteAt msg 4 = 0x00 then
        let response := response.set 0 k.PROTOCOLVERSION
        let response := response.set 1 k.MSGTYPE_PROPERTY_PAGE_RESPONSE
        let response := response.set 2 (HI__ d._manufacturerID)
        let response := response.set 3 (__LO d._manufacturerID)
        let response := response.set 4 d._deviceID
        let response := response.set 5 d._revisionID
        let response := response.set 6 d._deviceFlags
        let response := response.set 7 k.SYSTEM_TYPE_DEFAULT
        fillEmpty response 8
      else response
    knxWrite response w
  else w

/-- Method `KonnektingDevice::handleMsgRestart`: for a frame addressed to the device
the call ends in `reboot()`. -/
def handleMsgRestart (msg : Frame) (d : KonnektingDevice) (w : World) :
    Exit Unit × KonnektingDevice × World :=
  if d._individualAddress = __WORD (byteAt msg 2) (byteAt msg 3) then reboot d w
  else (Exit.returned (), d, w)

/-- Method `KonnektingDevice::handleMsgProgrammingModeWrite` (the `#else` branch:
`memoryCommit()`). -/
def handleMsgProgrammingModeWrite (k : Constants) (msg : Frame)
    (d : KonnektingDevice) (w : World) : KonnektingDevice × World :=
  if d._individualAddress = __WORD (byteAt msg 2) (byteAt msg 3) then
    let (d1, w1) := setProgState (byteAt msg 4 == 0x01) d w
    let w2 := sendAck k k.ACK k.ERR_CODE_OK w1
    (d1, memoryCommit d1 w2)
  else (d, w)

/-- Method `KonnektingDevice::handleMsgProgrammingModeRead`. -/
def handleMsgProgrammingModeRead (k : Constants) (d : KonnektingDevice)
    (w : World) : World :=
  if d._progState then
    let response := Buf.fresh
    let response := response.set 0 k.PROTOCOLVERSION
    let response := response.set 1 k.MSGTYPE_PROGRAMMING_MODE_RESPONSE
    let response := response.set 2 (HI__ d._individualAddress)
    let response := response.set 3 (__LO d._individualAddress)
    let response := fillEmpty response 4
    knxWrite response w
  else w

/-- Method `KonnektingDevice::handleMsgMemoryWrite`.  In round `i` the source computes
`uint16_t addr = startAddr + i` and `byte data = msg[5] + i`. -/
def handleMsgMemoryWrite (k : Constants) (msg : Frame) (d : KonnektingDevice)
    (w : World) : KonnektingDevice × World :=
  let count := byteAt msg 2 % 256
  let startAddr := (byteAt msg 3 * 256 + byteAt msg 4) % 65536
  let (d1, w1) := (List.range count).foldl
    (fun (s : KonnektingDevice × World) i =>
      let addr := (startAddr + i) % 65536
      let data := (byteAt msg 5 + i) % 256
      memoryWrite (addr : Int) data s.1 s.2) (d, w)
  (d1, sendAck k k.ACK k.ERR_CODE_OK w1)

/-- The data loop of `handleMsgMemoryRead` on the local `byte response[14]`:
`for (uint8_t i = 0; i < count; i++) response[5 + i] = memoryRead(startAddr + i)`.
The result is `none` once a round stores outside the array. -/
def memoryReadLoop (w : World) (startAddr count : Nat) (response : Buf) : Option Buf :=
  (List.range count).foldl
    (fun (r : Option Buf) (i : Nat) =>
      r.bind (fun b => b.store 14 (5 + i) (memoryRead w ((startAddr : Int) + (i : Int)))))
    (some response)

/-- Method `KonnektingDevice::handleMsgMemoryRead`.  The data loop stores
`memoryRead(startAddr + i)` at `response[5 + i]` without a test of `count`; when
it stores outside `response` the call has no defined behaviour from that store
on, and the device and world given are those before the store.  Otherwise the
padding loop runs from the `uint8_t` value of `5 + count` to 13 and the buffer
is sent. -/
def handleMsgMemoryRead (k : Constants) (msg : Frame) (d : KonnektingDevice)
    (w : World) : Exit Unit × KonnektingDevice × World :=
  let count := byteAt msg 2 % 256
  let startAddr := (byteAt msg 3 * 256 + byteAt msg 4) % 65536
  let response := Buf.fresh
  let response := response.set 0 k.PROTOCOLVERSION
  let response := response.set 1 k.MSGTYPE_MEMORY_RESPONSE
  let response := response.set 2 count
  let response := response.set 3 (HI__ d._individualAddress)
  let response := response.set 4 (__LO d._individualAddress)
  match memoryReadLoop w startAddr count response with
  | none => (Exit.undefined, d, w)
  | some response =>
    let start := (5 + count) % 256
    let response := (List.range' start (14 - start)).foldl
      (fun b i => b.set i 0xFF) response
    (Exit.returned (), d, knxWrite response w)

/-- Method `KonnektingDevice::internalKnxEvents`: the returned flag is `consumed`.
After a handler that returns the call returns `true`; it ends where the handler
ends when the handler does not return. -/
def internalKnxEvents (k : Constants) (index : Nat) (d : KonnektingDevice)
    (w : World) : Exit Bool × KonnektingDevice × World :=
  if index = 255 then
    let buffer := knxRead w
    let protocolversion := byteAt buffer 0
    let msgType := byteAt buffer 1
    if protocolversion ≠ k.PROTOCOLVERSION then (Exit.returned true, d, w)
    else if msgType = k.MSGTYPE_ACK then (Exit.returned true, d, w)
    else if msgType = k.MSGTYPE_PROPERTY_PAGE_READ then
      (Exit.returned true, d, handleMsgPropertyPageRead k buffer d w)
    else if msgType = k.MSGTYPE_RESTART then
      ((handleMsgRestart buffer d w).1.andReturn true, (handleMsgRestart buffer d w).2)
    else if msgType = k.MSGTYPE_PROGRAMMING_MODE_WRITE then
      (Exit.returned true, handleMsgProgrammingModeWrite k buffer d w)
    else if msgType = k.MSGTYPE_PROGRAMMING_MODE_READ then
      (Exit.returned true, d, handleMsgProgrammingModeRead k d w)
    else if msgType = k.MSGTYPE_MEMORY_WRITE then
      if d._progState then (Exit.returned true, handleMsgMemoryWrite k buffer d w)
      else (Exit.returned true, d, w)
    else if msgType = k.MSGTYPE_MEMORY_READ then
      if d._progState then
        ((handleMsgMemoryRead k buffer d w).1.andReturn true,
          (handleMsgMemoryRead k buffer d w).2)
      else (Exit.returned true, d, w)
    else (Exit.returned true, d, w)
  else (Exit.returned false, d, w)

/-- The call `internalKnxEvents(255)` for an inbound frame `msg` that has arrived
on the provisioning object. -/
def receive (k : Constants) (msg : Frame) (s : KonnektingDevice × World) :
    Exit Bool × KonnektingDevice × World :=
  internalKnxEvents k 255 s.1 { s.2 with rx := msg }

/-! ## Concrete inputs -/

/-- One admissible assignment of the header constants, used to evaluate the
embedding at concrete inputs. -/
def sampleConstants : Constants where
  PROTOCOLVERSION := 1
  MSGTYPE_ACK := 0
  MSGTYPE_PROPERTY_PAGE_READ := 1
  MSGTYPE_PROPERTY_PAGE_RESPONSE := 2
  MSGTYPE_RESTART := 9
  MSGTYPE_PROGRAMMING_MODE_WRITE := 10
  MSGTYPE_PROGRAMMING_MODE_READ := 11
  MSGTYPE_PROGRAMMING_MODE_RESPONSE := 12
  MSGTYPE_MEMORY_WRITE := 30
  MSGTYPE_MEMORY_READ := 31
  MSGTYPE_MEMORY_RESPONSE := 32
  ACK := 0
  ERR_CODE_OK := 0
  SYSTEM_TYPE_DEFAULT := 1
  EEPROM_DEVICE_FLAGS := 0
  EEPROM_INDIVIDUALADDRESS_HI := 1
  EEPROM_INDIVIDUALADDRESS_LO := 2
  EEPROM_COMOBJECTTABLE_START := 3
  P_ADDR := fun area line busdevice => (area % 16) * 4096 + (line % 16) * 256 + busdevice % 256
  caseLabels := by decide

/-- A provisioned device at bus address `0x1234`, in programming mode. -/
def sampleDevice : KonnektingDevice where
  _initialized := true
  _manufacturerID := 0xDEAD
  _deviceID := 7
  _revisionID := 3
  _deviceFlags := 0x80
  _individualAddress := 0x1234
  _paramTableStartindex := 3
  _numberOfParams := 0
  _paramSizeList := []
  _progState := true
  _rebootRequired := false
  _lastProgbtn := 0
  _progbtnCount := 0
  _progLED := 13
  _progButton := 2
  _progIndicatorFunc := false
  _eepromCommitFunc := true

/-- The same device outside programming mode. -/
def idleDevice : KonnektingDevice := { sampleDevice with _progState := false }

/-- A world whose store holds `0x01, 0x02, 0x03` at `0x0100..0x0102` and `0xFF`
elsewhere, with `msg` waiting on the provisioning object. -/
def sampleWorld (msg : Frame) : World where
  eeprom := fun a => if a = 0x0100 then 0x01 else if a = 0x0101 then 0x02
    else if a = 0x0102 then 0x03 else 0xFF
  writes := []
  commits := 0
  rx := msg
  sent := []
  restarts := 0
  indicator := []
  led := []
  millis := 0
  numberOfComObjects := 0
  comObjectAddress := []
  begun := []
  knxDeviceOk := true
  appEvents := []
  outside := fun _ => 1

/-- Memory-Write, count 2, start `0x0200`, payload `0x10, 0x20`. -/
def memWriteFrame : Frame :=
  [1, 30, 2, 0x02, 0x00, 0x10, 0x20, 0xFF, 0xFF, 0xFF, 0xFF, 0xFF, 0xFF, 0xFF]

/-- Memory-Read, count 2, start `0x0200`. -/
def memReadBackFrame : Frame :=
  [1, 31, 2, 0x02, 0x00, 0xFF, 0xFF, 0xFF, 0xFF, 0xFF, 0xFF, 0xFF, 0xFF, 0xFF]

/-- Memory-Read, count 3, start `0x0100`. -/
def memReadFrame : Frame :=
  [1, 31, 3, 0x01, 0x00, 0xFF, 0xFF, 0xFF, 0xFF, 0xFF, 0xFF, 0xFF, 0xFF, 0xFF]

/-- Property-Page-Read addressed to `0x1234`, sub-page `0x00`. -/
def propertyPageReadFrame : Frame :=
  [1, 1, 0x12, 0x34, 0x00, 0xFF, 0xFF, 0xFF, 0xFF, 0xFF, 0xFF, 0xFF, 0xFF, 0xFF]

/-- Property-Page-Read addressed to `0x1234`, sub-page `0x01`. -/
def propertyPageOneFrame : Frame :=
  [1, 1, 0x12, 0x34, 0x01, 0xFF, 0xFF, 0xFF, 0xFF, 0xFF, 0xFF, 0xFF, 0xFF, 0xFF]

/-- Restart addressed to another device, `0x1101`. -/
def foreignRestartFrame : Frame :=
  [1, 9, 0x11, 0x01, 0xFF, 0xFF, 0xFF, 0xFF, 0xFF, 0xFF, 0xFF, 0xFF, 0xFF, 0xFF]

/-- Programming-Mode-Write addressed to `0x1234`, mode on. -/
def progModeWriteFrame : Frame :=
  [1, 10, 0x12, 0x34, 0x01, 0xFF, 0xFF, 0xFF, 0xFF, 0xFF, 0xFF, 0xFF, 0xFF, 0xFF]

/-- Programming-Mode-Read. -/
def progModeReadFrame : Frame :=
  [1, 11, 0xFF, 0xFF, 0xFF, 0xFF, 0xFF, 0xFF, 0xFF, 0xFF, 0xFF, 0xFF, 0xFF, 0xFF]

/-- A Memory-Write frame of protocol version 2. -/
def otherVersionFrame : Frame :=
  [2, 30, 2, 0x02, 0x00, 0x10, 0x20, 0xFF, 0xFF, 0xFF, 0xFF, 0xFF, 0xFF, 0xFF]

/-- The idle device with four parameters of sizes 1, 2, 4 and 11, laid out from
store address 3 on. -/
def paramDevice : KonnektingDevice :=
  { idleDevice with _numberOfParams := 4, _paramSizeList := [1, 2, 4, 11] }

/-- A world whose store holds, from address 3 on, the parameter bytes `0x2A`,
`0xFF 0xFE`, `0x00 0x01 0x02 0x03` and the text `K N X` closed by `0x00`, and
`0xFF` elsewhere; memory around the size table holds the byte 1. -/
def paramWorld : World :=
  { sampleWorld [] with
    eeprom := fun a =>
      if 3 ≤ a then
        [0x2A, 0xFF, 0xFE, 0x00, 0x01, 0x02, 0x03, 75, 78, 88, 0x00].getD (a - 3).toNat 0xFF
      else 0xFF }

/-- A call of `toggleProgState` at the `millis()` reading `t`. -/
def toggleAt (t : Nat) (s : KonnektingDevice × World) :
    Exit Unit × KonnektingDevice × World :=
  toggleProgState s.1 { s.2 with millis := t }

/-- A run of `toggleProgState` calls at the readings `ts`, in order; it goes on
to the next call only after a call that returned, and ends where a call ends
that does not return. -/
def toggleAll : List Nat → KonnektingDevice × World → Exit Unit × KonnektingDevice × World
  | [], s => (Exit.returned (), s)
  | t :: ts, s =>
    match (toggleAt t s).1 with
    | Exit.returned _ => toggleAll ts (toggleAt t s).2
    | Exit.restarted => toggleAt t s
    | Exit.undefined => toggleAt t s

/-- A provisioned store: flags `0x7F`, bus address `0x1105`, and two
communication objects, `0x0A01` (settings `0x80`) and `0x0A02` (settings
`0x00`); two communication objects are known to the bus library. -/
def provisionedWorld : World :=
  { sampleWorld [] with
    eeprom := fun a =>
      if 0 ≤ a then [0x7F, 0x11, 0x05, 0x0A, 0x01, 0x80, 0x0A, 0x02, 0x00].getD a.toNat 0xFF
      else 0xFF
    numberOfComObjects := 2 }

/-- Restart addressed to `0x1234`. -/
def restartFrame : Frame :=
  [1, 9, 0x12, 0x34, 0xFF, 0xFF, 0xFF, 0xFF, 0xFF, 0xFF, 0xFF, 0xFF, 0xFF, 0xFF]

/-- The idle device after two rapid toggles: the rapid-toggle counter is 2 and
the last toggle was at 100 ms. -/
def twiceToggledDevice : KonnektingDevice :=
  { idleDevice with _progbtnCount := 2, _lastProgbtn := 100 }

/-! # Theorems -/

/-! ## Dispatch lemmas -/

/-- The labels of `switch (msgType)` are pairwise different. -/
theorem caseLabels_ne (k : Constants) :
    (k.MSGTYPE_ACK ≠ k.MSGTYPE_PROPERTY_PAGE_READ ∧
      k.MSGTYPE_ACK ≠ k.MSGTYPE_RESTART ∧
      k.MSGTYPE_ACK ≠ k.MSGTYPE_PROGRAMMING_MODE_WRITE ∧
      k.MSGTYPE_ACK ≠ k.MSGTYPE_PROGRAMMING_MODE_READ ∧
      k.MSGTYPE_ACK ≠ k.MSGTYPE_MEMORY_WRITE ∧
      k.MSGTYPE_ACK ≠ k.MSGTYPE_MEMORY_READ) ∧
    (k.MSGTYPE_PROPERTY_PAGE_READ ≠ k.MSGTYPE_RESTART ∧
      k.MSGTYPE_PROPERTY_PAGE_READ ≠ k.MSGTYPE_PROGRAMMING_MODE_WRITE ∧
      k.MSGTYPE_PROPERTY_PAGE_READ ≠ k.MSGTYPE_PROGRAMMING_MODE_READ ∧
      k.MSGTYPE_PROPERTY_PAGE_READ ≠ k.MSGTYPE_MEMORY_WRITE ∧
      k.MSGTYPE_PROPERTY_PAGE_READ ≠ k.MSGTYPE_MEMORY_READ) ∧
    (k.MSGTYPE_RESTART ≠ k.MSGTYPE_PROGRAMMING_MODE_WRITE ∧
      k.MSGTYPE_RESTART ≠ k.MSGTYPE_PROGRAMMING_MODE_READ ∧
      k.MSGTYPE_RESTART ≠ k.MSGTYPE_MEMORY_WRITE ∧
      k.MSGTYPE_RESTART ≠ k.MSGTYPE_MEMORY_READ) ∧
    (k.MSGTYPE_PROGRAMMING_MODE_WRITE ≠ k.MSGTYPE_PROGRAMMING_MODE_READ ∧
      k.MSGTYPE_PROGRAMMING_MODE_WRITE ≠ k.MSGTYPE_MEMORY_WRITE ∧
      k.MSGTYPE_PROGRAMMING_MODE_WRITE ≠ k.MSGTYPE_MEMORY_READ) ∧
    (k.MSGTYPE_PROGRAMMING_MODE_READ ≠ k.MSGTYPE_MEMORY_WRITE ∧
      k.MSGTYPE_PROGRAMMING_MODE_READ ≠ k.MSGTYPE_MEMORY_READ) ∧
    k.MSGTYPE_MEMORY_WRITE ≠ k.MSGTYPE_MEMORY_READ := by
  have h := k.caseLabels
  simpa only [List.nodup_cons, List.mem_cons, List.mem_singleton, not_or, List.not_mem_nil,
    List.nodup_nil, not_false_eq_true, and_true, ne_eq] using h

/-- Dispatch of `internalKnxEvents(255)` on a frame of the supported version:
Property-Page-Read. -/
theorem dispatch_ppr (k : Constants) (d : KonnektingDevice) (w : World)
    (hv : byteAt w.rx 0 = k.PROTOCOLVERSION)
    (ht : byteAt w.rx 1 = k.MSGTYPE_PROPERTY_PAGE_READ) :
    internalKnxEvents k 255 d w = (Exit.returned true, d, handleMsgPropertyPageRead k w.rx d w) := by
  obtain ⟨⟨h_ack_ppr, h_ack_rst, h_ack_pmw, h_ack_pmr, h_ack_mw, h_ack_mr⟩, ⟨h_ppr_rst, h_ppr_pmw, h_ppr_pmr, h_ppr_mw, h_ppr_mr⟩, ⟨h_rst_pmw, h_rst_pmr, h_rst_mw, h_rst_mr⟩, ⟨h_pmw_pmr, h_pmw_mw, h_pmw_mr⟩, ⟨h_pmr_mw, h_pmr_mr⟩, h_mw_mr⟩ := caseLabels_ne k
  simp only [internalKnxEvents, knxRead, hv, ht, ne_eq, not_true_eq_false, if_true, if_false,
    eq_self_iff_true, Ne.symm h_ack_ppr]

/-- Dispatch of `internalKnxEvents(255)` on a frame of the supported version:
Restart. -/
theorem dispatch_rst (k : Constants) (d : KonnektingDevice) (w : World)
    (hv : byteAt w.rx 0 = k.PROTOCOLVERSION)
    (ht : byteAt w.rx 1 = k.MSGTYPE_RESTART) :
    internalKnxEvents k 255 d w =
      ((handleMsgRestart w.rx d w).1.andReturn true, (handleMsgRestart w.rx d w).2) := by
  obtain ⟨⟨h_ack_ppr, h_ack_rst, h_ack_pmw, h_ack_pmr, h_ack_mw, h_ack_mr⟩, ⟨h_ppr_rst, h_ppr_pmw, h_ppr_pmr, h_ppr_mw, h_ppr_mr⟩, ⟨h_rst_pmw, h_rst_pmr, h_rst_mw, h_rst_mr⟩, ⟨h_pmw_pmr, h_pmw_mw, h_pmw_mr⟩, ⟨h_pmr_mw, h_pmr_mr⟩, h_mw_mr⟩ := caseLabels_ne k
  simp only [internalKnxEvents, knxRead, hv, ht, ne_eq, not_true_eq_false, if_true, if_false,
    eq_self_iff_true, Ne.symm h_ack_rst, Ne.symm h_ppr_rst]

/-- Dispatch of `internalKnxEvents(255)` on a frame of the supported version:
Programming-Mode-Write. -/
theorem dispatch_pmw (k : Constants) (d : KonnektingDevice) (w : World)
    (hv : byteAt w.rx 0 = k.PROTOCOLVERSION)
    (ht : byteAt w.rx 1 = k.MSGTYPE_PROGRAMMING_MODE_WRITE) :
    internalKnxEvents k 255 d w = (Exit.returned true, handleMsgProgrammingModeWrite k w.rx d w) := by
  obtain ⟨⟨h_ack_ppr, h_ack_rst, h_ack_pmw, h_ack_pmr, h_ack_mw, h_ack_mr⟩, ⟨h_ppr_rst, h_ppr_pmw, h_ppr_pmr, h_ppr_mw, h_ppr_mr⟩, ⟨h_rst_pmw, h_rst_pmr, h_rst_mw, h_rst_mr⟩, ⟨h_pmw_pmr, h_pmw_mw, h_pmw_mr⟩, ⟨h_pmr_mw, h_pmr_mr⟩, h_mw_mr⟩ := caseLabels_ne k
  simp only [internalKnxEvents, knxRead, hv, ht, ne_eq, not_true_eq_false, if_true, if_false,
    eq_self_iff_true, Ne.symm h_ack_pmw, Ne.symm h_ppr_pmw, Ne.symm h_rst_pmw]

/-- Dispatch of `internalKnxEvents(255)` on a frame of the supported version:
Programming-Mode-Read. -/
theorem dispatch_pmr (k : Constants) (d : KonnektingDevice) (w : World)
    (hv : byteAt w.rx 0 = k.PROTOCOLVERSION)
    (ht : byteAt w.rx 1 = k.MSGTYPE_PROGRAMMING_MODE_READ) :
    internalKnxEvents k 255 d w = (Exit.returned true, d, handleMsgProgrammingModeRead k d w) := by
  obtain ⟨⟨h_ack_ppr, h_ack_rst, h_ack_pmw, h_ack_pmr, h_ack_mw, h_ack_mr⟩, ⟨h_ppr_rst, h_ppr_pmw, h_ppr_pmr, h_ppr_mw, h_ppr_mr⟩, ⟨h_rst_pmw, h_rst_pmr, h_rst_mw, h_rst_mr⟩, ⟨h_pmw_pmr, h_pmw_mw, h_pmw_mr⟩, ⟨h_pmr_mw, h_pmr_mr⟩, h_mw_mr⟩ := caseLabels_ne k
  simp only [internalKnxEvents, knxRead, hv, ht, ne_eq, not_true_eq_false, if_true, if_false,
    eq_self_iff_true, Ne.symm h_ack_pmr, Ne.symm h_ppr_pmr, Ne.symm h_rst_pmr, Ne.symm h_pmw_pmr]

/-- Dispatch of `internalKnxEvents(255)` on a frame of the supported version:
Memory-Write. -/
theorem dispatch_mw (k : Constants) (d : KonnektingDevice) (w : World)
    (hv : byteAt w.rx 0 = k.PROTOCOLVERSION)
    (ht : byteAt w.rx 1 = k.MSGTYPE_MEMORY_WRITE) :
    internalKnxEvents k 255 d w = (if d._progState then (Exit.returned true, handleMsgMemoryWrite k w.rx d w) else (Exit.returned true, d, w)) := by
  obtain ⟨⟨h_ack_ppr, h_ack_rst, h_ack_pmw, h_ack_pmr, h_ack_mw, h_ack_mr⟩, ⟨h_ppr_rst, h_ppr_pmw, h_ppr_pmr, h_ppr_mw, h_ppr_mr⟩, ⟨h_rst_pmw, h_rst_pmr, h_rst_mw, h_rst_mr⟩, ⟨h_pmw_pmr, h_pmw_mw, h_pmw_mr⟩, ⟨h_pmr_mw, h_pmr_mr⟩, h_mw_mr⟩ := caseLabels_ne k
  simp only [internalKnxEvents, knxRead, hv, ht, ne_eq, not_true_eq_false, if_true, if_false,
    eq_self_iff_true, Ne.symm h_ack_mw, Ne.symm h_ppr_mw, Ne.symm h_rst_mw, Ne.symm h_pmw_mw, Ne.symm h_pmr_mw]

/-- Dispatch of `internalKnxEvents(255)` on a frame of the supported version:
Memory-Read. -/
theorem dispatch_mr (k : Constants) (d : KonnektingDevice) (w : World)
    (hv : byteAt w.rx 0 = k.PROTOCOLVERSION)
    (ht : byteAt w.rx 1 = k.MSGTYPE_MEMORY_READ) :
    internalKnxEvents k 255 d w =
      (if d._progState then
        ((handleMsgMemoryRead k w.rx d w).1.andReturn true, (handleMsgMemoryRead k w.rx d w).2)
      else (Exit.returned true, d, w)) := by
  obtain ⟨⟨h_ack_ppr, h_ack_rst, h_ack_pmw, h_ack_pmr, h_ack_mw, h_ack_mr⟩, ⟨h_ppr_rst, h_ppr_pmw, h_ppr_pmr, h_ppr_mw, h_ppr_mr⟩, ⟨h_rst_pmw, h_rst_pmr, h_rst_mw, h_rst_mr⟩, ⟨h_pmw_pmr, h_pmw_mw, h_pmw_mr⟩, ⟨h_pmr_mw, h_pmr_mr⟩, h_mw_mr⟩ := caseLabels_ne k
  simp only [internalKnxEvents, knxRead, hv, ht, ne_eq, not_true_eq_false, if_true, if_false,
    eq_self_iff_true, Ne.symm h_ack_mr, Ne.symm h_ppr_mr, Ne.symm h_rst_mr, Ne.symm h_pmw_mr, Ne.symm h_pmr_mr, Ne.symm h_mw_mr]

/-- Dispatch of `internalKnxEvents(255)` on a frame of another protocol
version: nothing is done. -/
theorem dispatch_version (k : Constants) (d : KonnektingDevice) (w : World)
    (hv : byteAt w.rx 0 ≠ k.PROTOCOLVERSION) :
    internalKnxEvents k 255 d w = (Exit.returned true, d, w) := by
  simp only [internalKnxEvents, knxRead, hv, ne_eq, not_false_eq_true, if_true,
    eq_self_iff_true]

/-! ## Buffer lemmas -/

theorem Buf.frame_eq (b : Buf) :
    b.frame = [b 0, b 1, b 2, b 3, b 4, b 5, b 6, b 7, b 8, b 9, b 10, b 11, b 12, b 13] := rfl

theorem Buf.frame_length (b : Buf) : b.frame.length = 14 := by
  simp [Buf.frame]

theorem Buf.frame_getElem? (b : Buf) (j : Nat) (h : j < 14) : b.frame[j]? = some (b j) := by
  simp [Buf.frame, List.getElem?_map, List.getElem?_range h]

/-- Content of a buffer after the loop `for (i = s; i < s + n; i++) b[i] = 0xFF`. -/
theorem padLoop_apply (n s : Nat) (b : Buf) (j : Nat) :
    ((List.range' s n).foldl (fun b i => b.set i 0xFF) b) j =
      if s ≤ j ∧ j < s + n then some 0xFF else b j := by
  induction n generalizing s b with
  | zero => rw [if_neg (by omega)]; rfl
  | succ n ih =>
    rw [List.range'_succ, List.foldl_cons, ih]
    by_cases h1 : s + 1 ≤ j ∧ j < s + 1 + n
    · rw [if_pos h1, if_pos ⟨by omega, by omega⟩]
    · rw [if_neg h1]
      by_cases h2 : j = s
      · simp [Buf.set, h2]
      · rw [if_neg (by omega)]
        simp [Buf.set, h2]

/-- Content of a buffer after the data loop of `handleMsgMemoryRead`. -/
theorem readLoop_apply (g : Nat → Nat) (c : Nat) (b : Buf) (j : Nat) :
    ((List.range c).foldl (fun b i => b.set (5 + i) (g i)) b) j =
      if 5 ≤ j ∧ j < 5 + c then some (g (j - 5)) else b j := by
  induction c with
  | zero => rw [if_neg (by omega)]; rfl
  | succ c ih =>
    rw [List.range_succ, List.foldl_append, List.foldl_cons, List.foldl_nil]
    by_cases h1 : j = 5 + c
    · subst h1
      simp [Buf.set]
    · simp only [Buf.set, if_neg h1]
      rw [ih]
      by_cases h2 : 5 ≤ j ∧ j < 5 + c
      · rw [if_pos h2, if_pos ⟨by omega, by omega⟩]
      · rw [if_neg h2, if_neg (by omega)]

theorem fillEmpty_apply (b : Buf) (s j : Nat) :
    fillEmpty b s j = if s ≤ j ∧ j < 14 then some 0xFF else b j := by
  unfold fillEmpty MSG_LENGTH
  rw [padLoop_apply]
  by_cases h : s ≤ j ∧ j < 14
  · rw [if_pos h, if_pos ⟨by omega, by omega⟩]
  · rw [if_neg h, if_neg (by omega)]

/-- The frame that `sendAck` hands to the bus. -/
theorem sendAck_eq (k : Constants) (ackType errorCode : Nat) (w : World) :
    sendAck k ackType errorCode w =
      { w with sent := w.sent ++
        [[some k.PROTOCOLVERSION, some k.MSGTYPE_ACK, some ackType, some errorCode,
          some 0xFF, some 0xFF, some 0xFF, some 0xFF, some 0xFF, some 0xFF, some 0xFF,
          some 0xFF, some 0xFF, some 0xFF]] } := by
  simp [sendAck, knxWrite, Buf.frame_eq, fillEmpty_apply, Buf.set, Buf.fresh]

/-- A 16-bit value is the word of its high and low byte. -/
theorem word_hi_lo (a : Nat) (h : a < 65536) : __WORD (HI__ a) (__LO a) = a := by
  unfold __WORD HI__ __LO
  omega

/-- Effect of `setProgState`: the state is stored and the indicator is driven,
through the registered function once or through the LED pin twice. -/
theorem setProgState_eq (state : Bool) (d : KonnektingDevice) (w : World) :
    setProgState state d w =
      ({ d with _progState := state },
       if d._progIndicatorFunc then { w with indicator := w.indicator ++ [state] }
       else { w with led := w.led ++ [(d._progLED, state), (d._progLED, state)] }) := by
  cases h : d._progIndicatorFunc <;>
    simp [setProgState, setProgLed, digitalWrite, h]


/-- The data loop of `handleMsgMemoryRead` stays inside `response` exactly for a
count of at most 9, and then assigns the cells `5 .. 5 + count - 1`. -/
theorem memoryReadLoop_eq (w : World) (A c : Nat) (b : Buf) :
    memoryReadLoop w A c b =
      if c ≤ 9 then
        some ((List.range c).foldl
          (fun b i => b.set (5 + i) (memoryRead w ((A : Int) + (i : Int)))) b)
      else none := by
  unfold memoryReadLoop
  induction c with
  | zero => rfl
  | succ c ih =>
    rw [List.range_succ, List.foldl_append, List.foldl_cons, List.foldl_nil, ih,
      List.foldl_append, List.foldl_cons, List.foldl_nil]
    by_cases h9 : c + 1 ≤ 9
    · rw [if_pos (by omega), if_pos h9]
      simp only [Option.some_bind, Buf.store]
      rw [if_pos (by omega)]
    · rw [if_neg h9]
      by_cases h : c ≤ 9
      · rw [if_pos h]
        simp only [Option.some_bind, Buf.store]
        rw [if_neg (by omega)]
      · rw [if_neg h]
        rfl

/-- Content of the response buffer of `handleMsgMemoryRead` for a count of at
most 9: the call returns after sending header, device address, store bytes and
padding. -/
theorem handleMsgMemoryRead_sent (k : Constants) (msg : Frame) (d : KonnektingDevice)
    (w : World) (c : Nat) (hc' : byteAt msg 2 % 256 = c) (hc9 : c ≤ 9) :
    ∃ b : Buf, handleMsgMemoryRead k msg d w
        = (Exit.returned (), d, { w with sent := w.sent ++ [b.frame] }) ∧
      b 0 = some k.PROTOCOLVERSION ∧ b 1 = some k.MSGTYPE_MEMORY_RESPONSE ∧
      b 2 = some c ∧
      b 3 = some (HI__ d._individualAddress) ∧ b 4 = some (__LO d._individualAddress) ∧
      (∀ i, i < c → b (5 + i) =
        some (w.eeprom ((((byteAt msg 3 * 256 + byteAt msg 4) % 65536 : Nat) : Int) + (i : Int)))) ∧
      (∀ j, 5 + c ≤ j → j ≤ 13 → b j = some 0xFF) := by
  have hs : (5 + c) % 256 = 5 + c := by omega
  refine ⟨(List.range' (5 + c) (14 - (5 + c))).foldl (fun b i => b.set i 0xFF)
    ((List.range c).foldl
      (fun b i => b.set (5 + i)
        (memoryRead w ((((byteAt msg 3 * 256 + byteAt msg 4) % 65536 : Nat) : Int) + (i : Int))))
      (((((Buf.fresh.set 0 k.PROTOCOLVERSION).set 1 k.MSGTYPE_MEMORY_RESPONSE).set 2 c).set 3
        (HI__ d._individualAddress)).set 4 (__LO d._individualAddress))),
    ?_, ?_, ?_, ?_, ?_, ?_, ?_, ?_⟩
  · simp only [handleMsgMemoryRead, memoryReadLoop_eq, hc', if_pos hc9, knxWrite, hs]
  all_goals simp only [padLoop_apply, readLoop_apply, Buf.set, Buf.fresh, memoryRead]
  · simp
  · rw [if_neg (by omega), if_neg (by omega)]; simp
  · rw [if_neg (by omega), if_neg (by omega)]; simp
  · rw [if_neg (by omega), if_neg (by omega)]; simp
  · rw [if_neg (by omega), if_neg (by omega)]; simp
  · intro i hi
    rw [if_neg (by omega), if_pos ⟨by omega, by omega⟩]
    simp
  · intro j h1 h2
    rw [if_pos ⟨h1, by omega⟩]

/-- The summing loops of the parameter layout: a fold that adds `f i` for
`i = 0 .. n-1` to `a` yields `a` plus the sum. -/
theorem sumLoop_eq (f : Nat → Int) (n : Nat) (a : Int) :
    (List.range n).foldl (fun (acc : Int) (i : Nat) => acc + f i) a
      = a + ∑ i in Finset.range n, f i := by
  induction n with
  | zero => simp
  | succ n ih =>
    rw [List.range_succ, List.foldl_append, List.foldl_cons, List.foldl_nil, ih,
      Finset.sum_range_succ]
    ring

/-- Inside the table `_paramSizeList[index]` is the table entry. -/
theorem paramSizeListAt_inside (d : KonnektingDevice) (w : World) (i : Nat)
    (h : i < d._paramSizeList.length) :
    paramSizeListAt d w (i : Int) = d._paramSizeList.getD i 0 := by
  unfold paramSizeListAt
  rw [if_pos ⟨by omega, by omega⟩]
  simp

/-- The sizes of the first `i` parameters add up to the sum of the first `i`
table entries. -/
theorem sum_sizes_eq_take (d : KonnektingDevice) (w : World) (i : Nat)
    (h : i ≤ d._paramSizeList.length) :
    ∑ j in Finset.range i, (paramSizeListAt d w (j : Int) : Int)
      = (((d._paramSizeList.take i).sum : Nat) : Int) := by
  induction i with
  | zero => simp
  | succ i ih =>
    rw [Finset.sum_range_succ, ih (by omega), paramSizeListAt_inside d w i (by omega),
      List.sum_take_succ _ _ (by omega), List.getD_eq_getElem _ _ (by omega)]
    push_cast
    ring

/-- The skip bytes of a natural index as a sum of parameter sizes. -/
theorem calcParamSkipBytes_nat (d : KonnektingDevice) (w : World) (i : Nat) :
    calcParamSkipBytes d w (i : Int) = ∑ j in Finset.range i, (getParamSize d w (j : Int) : Int) := by
  unfold calcParamSkipBytes
  by_cases h : (i : Int) > 0
  · rw [if_pos h, Int.toNat_ofNat, sumLoop_eq]
    simp
  · rw [if_neg h]
    have : i = 0 := by omega
    subst this
    simp


/-- Content of the caller's buffer after the read loop of `getParamValue`. -/
theorem paramLoop_apply (g : Nat → Nat) (c : Nat) (b : Buf) (j : Nat) :
    ((List.range c).foldl (fun (v : Buf) (i : Nat) => v.set i (g i)) b) j =
      if j < c then some (g j) else b j := by
  induction c with
  | zero => rw [if_neg (by omega)]; rfl
  | succ c ih =>
    rw [List.range_succ, List.foldl_append, List.foldl_cons, List.foldl_nil]
    by_cases h1 : j = c
    · subst h1
      simp [Buf.set]
    · simp only [Buf.set, if_neg h1]
      rw [ih]
      by_cases h2 : j < c
      · rw [if_pos h2, if_pos (by omega)]
      · rw [if_neg h2, if_neg (by omega)]

/-- The copy loop of `getSTRING11Param` on assigned cells appends the bytes up to
the first `0x00`. -/
theorem string11Loop_eq (pv : Buf) (f : Nat → Nat) (n i : Nat) (ret : List Nat)
    (h : ∀ j, j < n → pv (i + j) = some (f (i + j))) :
    string11Loop pv n i ret
      = some (ret ++ ((List.range' i n).map f).takeWhile (fun c : Nat => c != 0)) := by
  induction n generalizing i ret with
  | zero => simp [string11Loop]
  | succ n ih =>
    have h0 : pv i = some (f i) := by simpa using h 0 (by omega)
    rw [string11Loop, h0]
    by_cases hz : f i = 0x00
    · simp [hz, List.range'_succ]
    · have hrest : ∀ j, j < n → pv (i + 1 + j) = some (f (i + 1 + j)) := by
        intro j hj
        have := h (j + 1) (by omega)
        rwa [show i + (j + 1) = i + 1 + j by omega] at this
      simp only [hz, if_false]
      rw [ih (i + 1) (ret ++ [f i]) hrest, List.range'_succ, List.map_cons,
        List.takeWhile_cons_of_pos (by simpa using hz)]
      simp

/-- A list cut at the first `0x00`: when the first `k` entries are not `0x00` and
entry `k` is, or the list ends there, the cut is the first `k` entries. -/
theorem takeWhile_eq_take (l : List Nat) (k : Nat) (hk : k ≤ l.length)
    (hpre : ∀ j, j < k → l.getD j 0 ≠ 0)
    (hend : k = l.length ∨ l.getD k 0 = 0) :
    l.takeWhile (fun c : Nat => c != 0) = l.take k := by
  induction l generalizing k with
  | nil => simp
  | cons a l ih =>
    cases k with
    | zero =>
      rcases hend with hend | hend
      · simp at hend
      · simp at hend
        simp [hend]
    | succ k =>
      have ha : a ≠ 0 := by simpa using hpre 0 (by omega)
      rw [List.takeWhile_cons_of_pos (by simpa using ha), List.take_succ_cons]
      congr 1
      apply ih k (by simpa using hk)
      · intro j hj
        simpa using hpre (j + 1) (by omega)
      · rcases hend with hend | hend
        · left; simpa using hend
        · right; simpa using hend


/-- The forced reboot: on the third rapid toggle `toggleProgState` ends in `reboot()`
right after counting, before the state is toggled. -/
theorem toggleProgState_forced (d : KonnektingDevice) (w : World)
    (h : (w.millis % 2 ^ 32 + 2 ^ 32 - d._lastProgbtn % 2 ^ 32) % 2 ^ 32 < 300 ∧
      d._progbtnCount + 1 = 3) :
    toggleProgState d w =
      (Exit.restarted, { d with _progbtnCount := d._progbtnCount + 1 },
        { w with restarts := w.restarts + 1 }) := by
  simp only [toggleProgState, reboot, h.1, h.2, if_true]

/-- Every other `toggleProgState` call: the bookkeeping is updated, the state is
toggled and shown, and the call ends in `reboot()` exactly when `_rebootRequired`
is set. -/
theorem toggleProgState_regular (d : KonnektingDevice) (w : World)
    (h : ¬ ((w.millis % 2 ^ 32 + 2 ^ 32 - d._lastProgbtn % 2 ^ 32) % 2 ^ 32 < 300 ∧
      d._progbtnCount + 1 = 3)) :
    toggleProgState d w =
      ((if d._rebootRequired then Exit.restarted else Exit.returned ()),
        { d with
          _progbtnCount :=
            (if (w.millis % 2 ^ 32 + 2 ^ 32 - d._lastProgbtn % 2 ^ 32) % 2 ^ 32 < 300
              then d._progbtnCount + 1 else 1),
          _lastProgbtn := w.millis % 2 ^ 32,
          _progState := !d._progState },
        { w with
          indicator :=
            (if d._progIndicatorFunc then w.indicator ++ [!d._progState] else w.indicator),
          led :=
            (if d._progIndicatorFunc then w.led
              else w.led ++ [(d._progLED, !d._progState), (d._progLED, !d._progState)]),
          restarts := w.restarts + (if d._rebootRequired then 1 else 0) }) := by
  simp only [toggleProgState, setProgState_eq, reboot]
  by_cases h1 : (w.millis % 2 ^ 32 + 2 ^ 32 - d._lastProgbtn % 2 ^ 32) % 2 ^ 32 < 300
  · have h2 : ¬ d._progbtnCount + 1 = 3 := fun e => h ⟨h1, e⟩
    simp only [h1, h2, if_true, if_false]
    cases h3 : d._rebootRequired <;> cases h4 : d._progIndicatorFunc <;> simp [h3, h4]
  · simp only [h1, if_false]
    cases h3 : d._rebootRequired <;> cases h4 : d._progIndicatorFunc <;> simp [h3, h4]

/-- Effect of one `toggleProgState` call on the flags, the restarts and the way the
call ends; on the button bookkeeping and the state when it is no forced
reboot. -/
theorem toggleProgState_fields (d : KonnektingDevice) (w : World) :
    (toggleProgState d w).2.1._rebootRequired = d._rebootRequired ∧
    (toggleProgState d w).2.2.restarts =
      w.restarts +
        (if ((w.millis % 2 ^ 32 + 2 ^ 32 - d._lastProgbtn % 2 ^ 32) % 2 ^ 32 < 300 ∧
            d._progbtnCount + 1 = 3) ∨ d._rebootRequired = true then 1 else 0) ∧
    (toggleProgState d w).1 =
      (if ((w.millis % 2 ^ 32 + 2 ^ 32 - d._lastProgbtn % 2 ^ 32) % 2 ^ 32 < 300 ∧
          d._progbtnCount + 1 = 3) ∨ d._rebootRequired = true
        then Exit.restarted else Exit.returned ()) ∧
    (¬ ((w.millis % 2 ^ 32 + 2 ^ 32 - d._lastProgbtn % 2 ^ 32) % 2 ^ 32 < 300 ∧
        d._progbtnCount + 1 = 3) →
      (toggleProgState d w).2.1._lastProgbtn = w.millis % 2 ^ 32 ∧
      (toggleProgState d w).2.1._progbtnCount =
        (if (w.millis % 2 ^ 32 + 2 ^ 32 - d._lastProgbtn % 2 ^ 32) % 2 ^ 32 < 300
          then d._progbtnCount + 1 else 1) ∧
      (toggleProgState d w).2.1._progState = !d._progState) := by
  by_cases h : (w.millis % 2 ^ 32 + 2 ^ 32 - d._lastProgbtn % 2 ^ 32) % 2 ^ 32 < 300 ∧
      d._progbtnCount + 1 = 3
  · rw [toggleProgState_forced d w h]
    refine ⟨rfl, ?_, ?_, fun hn => absurd h hn⟩
    · rw [if_pos (Or.inl h)]
    · rw [if_pos (Or.inl h)]
  · rw [toggleProgState_regular d w h]
    refine ⟨rfl, ?_, ?_, fun _ => ⟨rfl, rfl, rfl⟩⟩
    · show w.restarts + (if d._rebootRequired = true then 1 else 0) = _
      by_cases h3 : d._rebootRequired = true
      · rw [if_pos h3, if_pos (Or.inr h3)]
      · rw [if_neg h3, if_neg (not_or.mpr ⟨h, h3⟩)]
    · show (if d._rebootRequired = true then Exit.restarted else Exit.returned ()) = _
      by_cases h3 : d._rebootRequired = true
      · rw [if_pos h3, if_pos (Or.inr h3)]
      · rw [if_neg h3, if_neg (not_or.mpr ⟨h, h3⟩)]

/-- One `toggleProgState` call at the reading `t`, in terms of the state
before. -/
theorem toggleAt_fields (t : Nat) (s : KonnektingDevice × World) :
    (toggleAt t s).2.1._rebootRequired = s.1._rebootRequired ∧
    (toggleAt t s).2.2.restarts =
      s.2.restarts +
        (if ((t % 2 ^ 32 + 2 ^ 32 - s.1._lastProgbtn % 2 ^ 32) % 2 ^ 32 < 300 ∧
            s.1._progbtnCount + 1 = 3) ∨ s.1._rebootRequired = true then 1 else 0) ∧
    (toggleAt t s).1 =
      (if ((t % 2 ^ 32 + 2 ^ 32 - s.1._lastProgbtn % 2 ^ 32) % 2 ^ 32 < 300 ∧
          s.1._progbtnCount + 1 = 3) ∨ s.1._rebootRequired = true
        then Exit.restarted else Exit.returned ()) ∧
    (¬ ((t % 2 ^ 32 + 2 ^ 32 - s.1._lastProgbtn % 2 ^ 32) % 2 ^ 32 < 300 ∧
        s.1._progbtnCount + 1 = 3) →
      (toggleAt t s).2.1._lastProgbtn = t % 2 ^ 32 ∧
      (toggleAt t s).2.1._progbtnCount =
        (if (t % 2 ^ 32 + 2 ^ 32 - s.1._lastProgbtn % 2 ^ 32) % 2 ^ 32 < 300
          then s.1._progbtnCount + 1 else 1)) := by
  obtain ⟨h1, h2, h3, h4⟩ := toggleProgState_fields s.1 { s.2 with millis := t }
  exact ⟨h1, h2, h3, fun hn => ⟨(h4 hn).1, (h4 hn).2.1⟩⟩

/-- A toggle that comes on a fresh counter, or at least 300 ms after the last
one, returns without a restart when no reboot is required, and leaves the
counter at 1. -/
theorem toggleAt_quiet (t : Nat) (s : KonnektingDevice × World) (ht : t < 2 ^ 32)
    (hr : s.1._rebootRequired = false)
    (hq : s.1._progbtnCount = 0 ∨ (s.1._lastProgbtn < 2 ^ 32 ∧ s.1._lastProgbtn + 300 ≤ t)) :
    (toggleAt t s).2.2.restarts = s.2.restarts ∧
    (toggleAt t s).2.1._rebootRequired = false ∧
    (toggleAt t s).2.1._progbtnCount = 1 ∧
    (toggleAt t s).2.1._lastProgbtn = t ∧
    (toggleAt t s).1 = Exit.returned () := by
  obtain ⟨h1, h2, h3, h4⟩ := toggleAt_fields t s
  have hn : ¬ ((t % 2 ^ 32 + 2 ^ 32 - s.1._lastProgbtn % 2 ^ 32) % 2 ^ 32 < 300 ∧
      s.1._progbtnCount + 1 = 3) := by
    rcases hq with hq | ⟨hq1, hq2⟩
    · rw [hq]; omega
    · omega
  have hno : ¬ (((t % 2 ^ 32 + 2 ^ 32 - s.1._lastProgbtn % 2 ^ 32) % 2 ^ 32 < 300 ∧
      s.1._progbtnCount + 1 = 3) ∨ s.1._rebootRequired = true) := by
    rw [hr]
    exact not_or.mpr ⟨hn, by decide⟩
  obtain ⟨h5, h6⟩ := h4 hn
  refine ⟨?_, h1.trans hr, ?_, ?_, ?_⟩
  · rw [h2, if_neg hno]; rfl
  · rw [h6]
    rcases hq with hq | ⟨hq1, hq2⟩
    · rw [hq]; split_ifs <;> rfl
    · rw [if_neg (by omega)]
  · rw [h5]; omega
  · rw [h3, if_neg hno]

/-- A run of toggles goes on after a toggle that returned. -/
theorem toggleAll_cons_returned (t : Nat) (ts : List Nat) (s : KonnektingDevice × World)
    (h : (toggleAt t s).1 = Exit.returned ()) :
    toggleAll (t :: ts) s = toggleAll ts (toggleAt t s).2 := by
  rw [toggleAll, h]

/-- A run of toggles ends with a toggle that ends in a restart. -/
theorem toggleAll_cons_restarted (t : Nat) (ts : List Nat) (s : KonnektingDevice × World)
    (h : (toggleAt t s).1 = Exit.restarted) :
    toggleAll (t :: ts) s = toggleAt t s := by
  rw [toggleAll, h]

/-- Toggles that are each at least 300 ms after the one before all return and
request no restart. -/
theorem toggleAll_quiet (ts : List Nat) :
    ∀ s : KonnektingDevice × World,
      ts.Chain' (fun a b => a + 300 ≤ b) → (∀ t ∈ ts, t < 2 ^ 32) →
      s.1._rebootRequired = false →
      (s.1._progbtnCount = 0 ∨
        (s.1._lastProgbtn < 2 ^ 32 ∧ ∀ t ∈ ts.head?, s.1._lastProgbtn + 300 ≤ t)) →
      (toggleAll ts s).2.2.restarts = s.2.restarts ∧
      (toggleAll ts s).1 = Exit.returned () := by
  induction ts with
  | nil => intro s _ _ _ _; exact ⟨rfl, rfl⟩
  | cons t ts ih =>
    intro s hchain hlt hr hq
    have ht : t < 2 ^ 32 := hlt t (List.mem_cons_self _ _)
    obtain ⟨q1, q2, q3, q4, q5⟩ := toggleAt_quiet t s ht hr (by
      rcases hq with hq | ⟨hq1, hq2⟩
      · exact Or.inl hq
      · exact Or.inr ⟨hq1, hq2 t (by simp)⟩)
    rw [toggleAll_cons_returned t ts s q5]
    have := ih (toggleAt t s).2 (List.Chain'.tail hchain)
      (fun u hu => hlt u (List.mem_cons_of_mem _ hu)) q2 (Or.inr ⟨by rw [q4]; exact ht, ?_⟩)
    · rw [this.1, q1]
      exact ⟨rfl, this.2⟩
    intro u hu
    rw [q4]
    cases ts with
    | nil => simp at hu
    | cons v vs =>
      simp only [List.head?_cons, Option.mem_def, Option.some.injEq] at hu
      subst hu
      exact (List.chain'_cons.mp hchain).1

/-- Effect of `handleMsgRestart`: the call ends in one restart when the target
address is the device's, and returns without any effect otherwise. -/
theorem handleMsgRestart_eq (msg : Frame) (d : KonnektingDevice) (w : World) :
    handleMsgRestart msg d w =
      (if d._individualAddress = __WORD (byteAt msg 2) (byteAt msg 3)
        then (Exit.restarted, d, { w with restarts := w.restarts + 1 })
        else (Exit.returned (), d, w)) := by
  unfold handleMsgRestart reboot
  rfl

/-- Effect of `toggleProgState` on the indicator when it is no forced reboot. -/
theorem toggleProgState_indicator (d : KonnektingDevice) (w : World)
    (h : ¬ ((w.millis % 2 ^ 32 + 2 ^ 32 - d._lastProgbtn % 2 ^ 32) % 2 ^ 32 < 300 ∧
      d._progbtnCount + 1 = 3)) :
    (if d._progIndicatorFunc then
        (toggleProgState d w).2.2.indicator = w.indicator ++ [!d._progState] ∧
        (toggleProgState d w).2.2.led = w.led
      else
        (toggleProgState d w).2.2.led
          = w.led ++ [(d._progLED, !d._progState), (d._progLED, !d._progState)] ∧
        (toggleProgState d w).2.2.indicator = w.indicator) := by
  rw [toggleProgState_regular d w h]
  cases h4 : d._progIndicatorFunc <;> simp

/-- Bit 7 of a settings byte, as the source tests it. -/
theorem and_0x80 (s : Nat) : ((s &&& 0x80) == 0x80) = s.testBit 7 := by
  have t128 : ∀ i, Nat.testBit 128 i = decide (7 = i) := fun i =>
    Nat.testBit_two_pow (n := 7) (m := i)
  have h : s &&& 0x80 = if s.testBit 7 then 0x80 else 0 := by
    apply Nat.eq_of_testBit_eq
    intro i
    rw [Nat.testBit_and, t128]
    by_cases h : 7 = i
    · subst h
      cases s.testBit 7 <;> simp [t128]
    · cases s.testBit 7 <;> simp [h, t128]
  rw [h]
  cases s.testBit 7 <;> simp

/-- Effect of the communication-object loop of `internalInit` over the indices
`l`: one `Knx.setComObjectAddress` call per index, with the values read from the
store. -/
theorem comObjLoop_eq (k : Constants) (l : List Nat) (v : World) :
    l.foldl
        (fun (v : World) (i : Nat) =>
          knxSetComObjectAddress i
            ((v.eeprom (k.EEPROM_COMOBJECTTABLE_START + (i : Int) * 3) * 256
              + v.eeprom (k.EEPROM_COMOBJECTTABLE_START + (i : Int) * 3 + 1)) % 65536)
            ((v.eeprom (k.EEPROM_COMOBJECTTABLE_START + (i : Int) * 3 + 2) &&& 0x80) == 0x80)
            v) v
      = { v with comObjectAddress := v.comObjectAddress ++ l.map (fun i : Nat =>
          (i,
            (v.eeprom (k.EEPROM_COMOBJECTTABLE_START + (i : Int) * 3) * 256
              + v.eeprom (k.EEPROM_COMOBJECTTABLE_START + (i : Int) * 3 + 1)) % 65536,
            (v.eeprom (k.EEPROM_COMOBJECTTABLE_START + (i : Int) * 3 + 2) &&& 0x80) == 0x80)) } := by
  induction l generalizing v with
  | nil => simp
  | cons i l ih =>
    rw [List.foldl_cons, ih]
    simp [knxSetComObjectAddress]

/-- A list of bytes with a byte default delivers bytes at every index. -/
theorem getD_lt_of_forall (l : List Nat) (n dflt b : Nat) (hl : ∀ x ∈ l, x < b)
    (hd : dflt < b) : l.getD n dflt < b := by
  by_cases h : n < l.length
  · rw [List.getD_eq_getElem _ _ h]
    exact hl _ (List.getElem_mem _)
  · rw [List.getD_eq_default _ _ (by omega)]
    exact hd

/-- The provisioned sample store holds bytes. -/
theorem provisionedWorld_bytes (a : Int) : provisionedWorld.eeprom a < 256 := by
  unfold provisionedWorld
  simp only []
  split_ifs
  · exact getD_lt_of_forall _ _ _ _ (by decide) (by decide)
  · decide

/-- The parameter sample store holds bytes. -/
theorem paramWorld_bytes (a : Int) : paramWorld.eeprom a < 256 := by
  unfold paramWorld
  simp only []
  split_ifs
  · exact getD_lt_of_forall _ _ _ _ (by decide) (by decide)
  · decide


/-- The skip bytes of a natural index as the cast of a sum of natural sizes. -/
theorem calcParamSkipBytes_cast (d : KonnektingDevice) (w : World) (i : Nat) :
    calcParamSkipBytes d w (i : Int)
      = ((∑ j in Finset.range i, getParamSize d w (j : Int) : Nat) : Int) := by
  rw [calcParamSkipBytes_nat]
  push_cast
  rfl

/-- The free offset is the parameter-table start plus the skip bytes of the
whole table. -/
theorem getFreeEepromOffset_eq (d : KonnektingDevice) (w : World)
    (hwf : d._numberOfParams = d._paramSizeList.length) :
    getFreeEepromOffset d w
      = d._paramTableStartindex
        + calcParamSkipBytes d w ((d._paramSizeList.length : Nat) : Int) := by
  unfold getFreeEepromOffset
  rw [sumLoop_eq, hwf, Int.toNat_ofNat, calcParamSkipBytes_nat]
  rfl

/-- Content of the caller's buffer after `getParamValue` for an index that
passes the guard. -/
theorem getParamValue_apply (d : KonnektingDevice) (w : World) (i : Int) (value : Buf)
    (hi : i < d._numberOfParams) (t : Nat) :
    getParamValue d w i value t =
      if t < getParamSize d w i then
        some (memoryRead w (d._paramTableStartindex + calcParamSkipBytes d w i + (t : Int)))
      else value t := by
  unfold getParamValue
  rw [if_neg (by omega)]
  exact paramLoop_apply _ _ _ _

/-! ## Lemmas on the way `internalKnxEvents` ends -/

/-- C1 (memory round trip), evaluated at a failing input: in programming mode
the device handles a Memory-Write of the two bytes `0x10, 0x20` at `0x0200` and
then a Memory-Read of two bytes at `0x0200`; both calls return.  The store
receives `0x10, 0x11` (`msg[5] + i` instead of `msg[5 + i]`), and bytes 5..6 of
the Memory-Response are `0x10, 0x11`, not the payload that was written. -/
theorem C1_round_trip_fails :
    (receive sampleConstants memWriteFrame (sampleDevice, sampleWorld [])).1
      = Exit.returned true ∧
    (receive sampleConstants memWriteFrame (sampleDevice, sampleWorld [])).2.2.writes
      = [(0x0200, 0x10), (0x0201, 0x11)] ∧
    (receive sampleConstants memReadBackFrame
        (receive sampleConstants memWriteFrame (sampleDevice, sampleWorld [])).2).1
      = Exit.returned true ∧
    (receive sampleConstants memReadBackFrame
        (receive sampleConstants memWriteFrame (sampleDevice, sampleWorld [])).2).2.2.sent
      = [[some 1, some 0, some 0, some 0, some 0xFF, some 0xFF, some 0xFF, some 0xFF,
          some 0xFF, some 0xFF, some 0xFF, some 0xFF, some 0xFF, some 0xFF],
         [some 1, some 32, some 2, some 0x12, some 0x34, some 0x10, some 0x11, some 0xFF,
          some 0xFF, some 0xFF, some 0xFF, some 0xFF, some 0xFF, some 0xFF]] ∧
    byteAt memWriteFrame 5 = 0x10 ∧ byteAt memWriteFrame 6 = 0x20 := by
  decide

/-- C2 (programming-mode gate): outside programming mode a Memory-Write or
Memory-Read frame of the supported version is consumed without any effect: the
persistent store keeps every byte, no store write is made, no frame is sent and
the device and the world are what they were. -/
theorem C2_memory_gate (k : Constants) (d : KonnektingDevice) (w : World)
    (hprog : d._progState = false)
    (hv : byteAt w.rx 0 = k.PROTOCOLVERSION)
    (ht : byteAt w.rx 1 = k.MSGTYPE_MEMORY_WRITE ∨ byteAt w.rx 1 = k.MSGTYPE_MEMORY_READ) :
    (∀ a, (internalKnxEvents k 255 d w).2.2.eeprom a = w.eeprom a) ∧
    (internalKnxEvents k 255 d w).2.2.writes = w.writes ∧
    (internalKnxEvents k 255 d w).2.2.sent = w.sent ∧
    internalKnxEvents k 255 d w = (Exit.returned true, d, w) := by
  have h : internalKnxEvents k 255 d w = (Exit.returned true, d, w) := by
    rcases ht with ht | ht
    · rw [dispatch_mw k d w hv ht, hprog]; rfl
    · rw [dispatch_mr k d w hv ht, hprog]; rfl
  rw [h]
  exact ⟨fun _ => rfl, rfl, rfl, rfl⟩

/-- C2 at a concrete input: the idle device and a Memory-Write frame. -/
theorem C2_memory_gate_witness :
    idleDevice._progState = false ∧
    (∀ a, (internalKnxEvents sampleConstants 255 idleDevice
        (sampleWorld memWriteFrame)).2.2.eeprom a = (sampleWorld memWriteFrame).eeprom a) ∧
    (internalKnxEvents sampleConstants 255 idleDevice (sampleWorld memWriteFrame)).2.2.writes
      = (sampleWorld memWriteFrame).writes ∧
    (internalKnxEvents sampleConstants 255 idleDevice (sampleWorld memWriteFrame)).2.2.sent
      = (sampleWorld memWriteFrame).sent ∧
    internalKnxEvents sampleConstants 255 idleDevice (sampleWorld memWriteFrame)
      = (Exit.returned true, idleDevice, sampleWorld memWriteFrame) :=
  ⟨by decide,
   C2_memory_gate sampleConstants idleDevice (sampleWorld memWriteFrame)
    (by decide) (by decide) (Or.inl (by decide))⟩

/-- C3 (version mismatch): a 14-byte frame whose byte 0 is not
`PROTOCOLVERSION` is consumed without any effect, whatever its other bytes: no
frame is sent, no restart is requested, device and world stay as they were, and
so handling the frame any number of times gives the same state. -/
theorem C3_version_mismatch (k : Constants) (d : KonnektingDevice) (w : World)
    (hframe : isFrame w.rx)
    (hv : byteAt w.rx 0 ≠ k.PROTOCOLVERSION) :
    internalKnxEvents k 255 d w = (Exit.returned true, d, w) ∧
    (internalKnxEvents k 255 d w).2.2.sent = w.sent ∧
    (internalKnxEvents k 255 d w).2.2.restarts = w.restarts ∧
    (internalKnxEvents k 255 d w).2.1 = d ∧
    (internalKnxEvents k 255 d w).2.2.eeprom = w.eeprom ∧
    ∀ n : Nat,
      Nat.iterate (fun s : KonnektingDevice × World => (internalKnxEvents k 255 s.1 s.2).2) n
        (d, w) = (d, w) := by
  have _ := hframe
  have h := dispatch_version k d w hv
  refine ⟨h, by rw [h], by rw [h], by rw [h], by rw [h], fun n => ?_⟩
  induction n with
  | zero => rfl
  | succ n ih =>
    rw [Function.iterate_succ_apply]
    simp only [h]
    exact ih

/-- C3 at a concrete input: a frame of protocol version 2. -/
theorem C3_version_mismatch_witness :
    isFrame (sampleWorld otherVersionFrame).rx ∧
    byteAt (sampleWorld otherVersionFrame).rx 0 ≠ sampleConstants.PROTOCOLVERSION ∧
    internalKnxEvents sampleConstants 255 sampleDevice (sampleWorld otherVersionFrame)
      = (Exit.returned true, sampleDevice, sampleWorld otherVersionFrame) :=
  ⟨by decide, by decide,
   (C3_version_mismatch sampleConstants sampleDevice (sampleWorld otherVersionFrame)
    (by decide) (by decide)).1⟩

/-- C4 (Memory-Read response content): in programming mode a Memory-Read frame
with count `c ≤ 9` and start address `A` makes the device send exactly one frame
of 14 bytes with byte 0 `PROTOCOLVERSION`, byte 1 `MSGTYPE_MEMORY_RESPONSE`,
byte 2 `c`, bytes `5 .. 5+c-1` the store bytes at `A .. A+c-1` in order and
every byte from `5+c` to 13 equal to `0xFF`; the device, the store and the rest
of the world do not change. -/
theorem C4_memory_read_response (k : Constants) (d : KonnektingDevice) (w : World)
    (c A : Nat)
    (hprog : d._progState = true)
    (hv : byteAt w.rx 0 = k.PROTOCOLVERSION)
    (ht : byteAt w.rx 1 = k.MSGTYPE_MEMORY_READ)
    (hc : byteAt w.rx 2 = c) (hc9 : c ≤ 9)
    (hA : A < 65536) (h3 : byteAt w.rx 3 = HI__ A) (h4 : byteAt w.rx 4 = __LO A) :
    ∃ f : List (Option Nat),
      internalKnxEvents k 255 d w = (Exit.returned true, d, { w with sent := w.sent ++ [f] }) ∧
      (internalKnxEvents k 255 d w).2.2.eeprom = w.eeprom ∧
      f.length = 14 ∧
      f[0]? = some (some k.PROTOCOLVERSION) ∧
      f[1]? = some (some k.MSGTYPE_MEMORY_RESPONSE) ∧
      f[2]? = some (some c) ∧
      (∀ i : Nat, i < c → f[5 + i]? = some (some (memoryRead w ((A : Int) + (i : Int))))) ∧
      (∀ j, 5 + c ≤ j → j ≤ 13 → f[j]? = some (some 0xFF)) := by
  obtain ⟨b, hb, b0, b1, b2, -, -, bdata, bpad⟩ :=
    handleMsgMemoryRead_sent k w.rx d w c (by omega) hc9
  have hw : (byteAt w.rx 3 * 256 + byteAt w.rx 4) % 65536 = A := by
    rw [h3, h4]; exact word_hi_lo A hA
  have he : internalKnxEvents k 255 d w
      = (Exit.returned true, d, { w with sent := w.sent ++ [b.frame] }) := by
    rw [dispatch_mr k d w hv ht, hprog, if_pos rfl, hb]
    rfl
  refine ⟨b.frame, he, by rw [he], b.frame_length, ?_, ?_, ?_, ?_, ?_⟩
  · rw [Buf.frame_getElem? b 0 (by omega), b0]
  · rw [Buf.frame_getElem? b 1 (by omega), b1]
  · rw [Buf.frame_getElem? b 2 (by omega), b2]
  · intro i hi
    rw [Buf.frame_getElem? b (5 + i) (by omega), bdata i hi, hw]
    rfl
  · intro j h1 h2
    rw [Buf.frame_getElem? b j (by omega), bpad j h1 h2]

/-- C4 at the input of the claim: count 3, store `0x01, 0x02, 0x03` at
`0x0100 .. 0x0102`. -/
theorem C4_memory_read_response_witness :
    byteAt (sampleWorld memReadFrame).rx 2 = 3 ∧
    memoryRead (sampleWorld memReadFrame) 0x0100 = 0x01 ∧
    memoryRead (sampleWorld memReadFrame) 0x0101 = 0x02 ∧
    memoryRead (sampleWorld memReadFrame) 0x0102 = 0x03 ∧
    ∃ f : List (Option Nat),
      internalKnxEvents sampleConstants 255 sampleDevice (sampleWorld memReadFrame)
        = (Exit.returned true, sampleDevice,
            { sampleWorld memReadFrame with sent := (sampleWorld memReadFrame).sent ++ [f] }) ∧
      (internalKnxEvents sampleConstants 255 sampleDevice (sampleWorld memReadFrame)).2.2.eeprom
        = (sampleWorld memReadFrame).eeprom ∧
      f.length = 14 ∧
      f[0]? = some (some sampleConstants.PROTOCOLVERSION) ∧
      f[1]? = some (some sampleConstants.MSGTYPE_MEMORY_RESPONSE) ∧
      f[2]? = some (some 3) ∧
      (∀ i : Nat, i < 3 → f[5 + i]? =
        some (some (memoryRead (sampleWorld memReadFrame) (((0x0100 : Nat) : Int) + (i : Int))))) ∧
      (∀ j, 5 + 3 ≤ j → j ≤ 13 → f[j]? = some (some 0xFF)) :=
  ⟨by decide, by decide, by decide, by decide,
   C4_memory_read_response sampleConstants sampleDevice (sampleWorld memReadFrame) 3 0x0100
    (by decide) (by decide) (by decide) (by decide) (by decide) (by decide) (by decide)
    (by decide)⟩

/-- C5 (Memory-Read response address field), evaluated at a failing input: the
device at bus address `0x1234`, in programming mode, answers a Memory-Read of
three bytes at start address `0x0100`; the call returns after sending one
Memory-Response whose bytes 3 and 4 are `0x12, 0x34`, the device's own bus
address, not the bytes `0x01, 0x00` of the start address that was read. -/
theorem C5_address_field_fails :
    sampleDevice._progState = true ∧ sampleDevice._individualAddress = 0x1234 ∧
    __WORD (byteAt memReadFrame 3) (byteAt memReadFrame 4) = 0x0100 ∧
    (internalKnxEvents sampleConstants 255 sampleDevice (sampleWorld memReadFrame)).1
      = Exit.returned true ∧
    (internalKnxEvents sampleConstants 255 sampleDevice (sampleWorld memReadFrame)).2.2.sent
      = [[some 1, some 32, some 3, some 0x12, some 0x34, some 0x01, some 0x02, some 0x03,
          some 0xFF, some 0xFF, some 0xFF, some 0xFF, some 0xFF, some 0xFF]] ∧
    ¬ (∀ f ∈ (internalKnxEvents sampleConstants 255 sampleDevice
          (sampleWorld memReadFrame)).2.2.sent,
        f[3]? = some (some (HI__ 0x0100)) ∧ f[4]? = some (some (__LO 0x0100))) := by
  decide

/-- C6 (Property-Page-Read response): a device at bus address `a` that handles a
Property-Page-Read frame addressed to `a` with sub-page `0x00` sends exactly one
frame, the device-info record padded with `0xFF`, and changes nothing else; the
identity fields in it are the arguments of `internalInit`, and the flags byte is
the one `internalInit` loaded from the store. -/
theorem C6_property_page_read (k : Constants) (d : KonnektingDevice) (w : World) (a : Nat)
    (ha : a < 65536)
    (haddr : d._individualAddress = a)
    (hv : byteAt w.rx 0 = k.PROTOCOLVERSION)
    (ht : byteAt w.rx 1 = k.MSGTYPE_PROPERTY_PAGE_READ)
    (h2 : byteAt w.rx 2 = HI__ a) (h3 : byteAt w.rx 3 = __LO a)
    (h4 : byteAt w.rx 4 = 0x00) :
    internalKnxEvents k 255 d w =
      (Exit.returned true, d, { w with sent := w.sent ++
        [[some k.PROTOCOLVERSION, some k.MSGTYPE_PROPERTY_PAGE_RESPONSE,
          some (HI__ d._manufacturerID), some (__LO d._manufacturerID),
          some d._deviceID, some d._revisionID, some d._deviceFlags,
          some k.SYSTEM_TYPE_DEFAULT,
          some 0xFF, some 0xFF, some 0xFF, some 0xFF, some 0xFF, some 0xFF]] }) ∧
    ∀ (manufacturerID deviceID revisionID : Nat) (d0 : KonnektingDevice) (w0 : World),
      (internalInit k manufacturerID deviceID revisionID d0 w0).2.1._manufacturerID
          = manufacturerID ∧
      (internalInit k manufacturerID deviceID revisionID d0 w0).2.1._deviceID = deviceID ∧
      (internalInit k manufacturerID deviceID revisionID d0 w0).2.1._revisionID = revisionID ∧
      (internalInit k manufacturerID deviceID revisionID d0 w0).2.1._deviceFlags
          = w0.eeprom k.EEPROM_DEVICE_FLAGS := by
  constructor
  · rw [dispatch_ppr k d w hv ht]
    unfold handleMsgPropertyPageRead
    rw [h2, h3, word_hi_lo a ha, if_pos haddr]
    simp [h4, knxWrite, Buf.frame_eq, fillEmpty_apply, Buf.set]
  · intro m dv rv d0 w0
    simp only [internalInit, setProgState_eq, memoryRead, reboot]
    split_ifs <;> exact ⟨rfl, rfl, rfl, rfl⟩

/-- C6 at the input of the claim: bus address `0x1234`. -/
theorem C6_property_page_read_witness :
    sampleDevice._individualAddress = 0x1234 ∧
    byteAt (sampleWorld propertyPageReadFrame).rx 4 = 0x00 ∧
    internalKnxEvents sampleConstants 255 sampleDevice (sampleWorld propertyPageReadFrame) =
      (Exit.returned true, sampleDevice, { sampleWorld propertyPageReadFrame with
        sent := (sampleWorld propertyPageReadFrame).sent ++
          [[some sampleConstants.PROTOCOLVERSION,
            some sampleConstants.MSGTYPE_PROPERTY_PAGE_RESPONSE,
            some (HI__ sampleDevice._manufacturerID), some (__LO sampleDevice._manufacturerID),
            some sampleDevice._deviceID, some sampleDevice._revisionID,
            some sampleDevice._deviceFlags, some sampleConstants.SYSTEM_TYPE_DEFAULT,
            some 0xFF, some 0xFF, some 0xFF, some 0xFF, some 0xFF, some 0xFF]] }) :=
  ⟨by decide, by decide,
   (C6_property_page_read sampleConstants sampleDevice (sampleWorld propertyPageReadFrame)
    0x1234 (by decide) (by decide) (by decide) (by decide) (by decide) (by decide)
    (by decide)).1⟩

/-- C7 (address gating): a Property-Page-Read, Restart or Programming-Mode-Write
frame of the supported version whose target address in bytes 2..3 is not the
device's bus address is consumed without any effect: no frame is sent, no
restart is requested, the store is not committed, programming mode and every
other field of device and world stay as they were. -/
theorem C7_address_gating (k : Constants) (d : KonnektingDevice) (w : World)
    (hv : byteAt w.rx 0 = k.PROTOCOLVERSION)
    (ht : byteAt w.rx 1 = k.MSGTYPE_PROPERTY_PAGE_READ ∨ byteAt w.rx 1 = k.MSGTYPE_RESTART ∨
      byteAt w.rx 1 = k.MSGTYPE_PROGRAMMING_MODE_WRITE)
    (hne : __WORD (byteAt w.rx 2) (byteAt w.rx 3) ≠ d._individualAddress) :
    (internalKnxEvents k 255 d w).2.2.sent = w.sent ∧
    (internalKnxEvents k 255 d w).2.2.restarts = w.restarts ∧
    (internalKnxEvents k 255 d w).2.2.commits = w.commits ∧
    (internalKnxEvents k 255 d w).2.1._progState = d._progState ∧
    internalKnxEvents k 255 d w = (Exit.returned true, d, w) := by
  have hne' : ¬ d._individualAddress = __WORD (byteAt w.rx 2) (byteAt w.rx 3) :=
    fun e => hne e.symm
  have h : internalKnxEvents k 255 d w = (Exit.returned true, d, w) := by
    rcases ht with ht | ht | ht
    · rw [dispatch_ppr k d w hv ht, handleMsgPropertyPageRead, if_neg hne']
    · rw [dispatch_rst k d w hv ht, handleMsgRestart_eq, if_neg hne']
      rfl
    · rw [dispatch_pmw k d w hv ht, handleMsgProgrammingModeWrite, if_neg hne']
  rw [h]
  exact ⟨rfl, rfl, rfl, rfl, rfl⟩

/-- C7 at a concrete input: a Restart frame for the device `0x1101`. -/
theorem C7_address_gating_witness :
    __WORD (byteAt (sampleWorld foreignRestartFrame).rx 2)
        (byteAt (sampleWorld foreignRestartFrame).rx 3) ≠ sampleDevice._individualAddress ∧
    internalKnxEvents sampleConstants 255 sampleDevice (sampleWorld foreignRestartFrame)
      = (Exit.returned true, sampleDevice, sampleWorld foreignRestartFrame) :=
  ⟨by decide,
   (C7_address_gating sampleConstants sampleDevice (sampleWorld foreignRestartFrame)
    (by decide) (Or.inr (Or.inl (by decide))) (by decide)).2.2.2.2⟩

/-- C8 (Programming-Mode-Write): for a Programming-Mode-Write frame of the
supported version addressed to the device, programming mode becomes true exactly
when byte 4 is `0x01`, no other device field changes, the indicator is set to
the new state (by the registered function, else on the LED pin), `memoryCommit`
has run (one call of the commit function when one is registered), and exactly
one frame is sent, the ACK with `ERR_CODE_OK`. -/
theorem C8_programming_mode_write (k : Constants) (d : KonnektingDevice) (w : World)
    (hv : byteAt w.rx 0 = k.PROTOCOLVERSION)
    (ht : byteAt w.rx 1 = k.MSGTYPE_PROGRAMMING_MODE_WRITE)
    (haddr : __WORD (byteAt w.rx 2) (byteAt w.rx 3) = d._individualAddress) :
    ((internalKnxEvents k 255 d w).2.1._progState = true ↔ byteAt w.rx 4 = 0x01) ∧
    (internalKnxEvents k 255 d w).2.1 =
      { d with _progState := (internalKnxEvents k 255 d w).2.1._progState } ∧
    (if d._progIndicatorFunc then
        (internalKnxEvents k 255 d w).2.2.indicator
          = w.indicator ++ [(internalKnxEvents k 255 d w).2.1._progState] ∧
        (internalKnxEvents k 255 d w).2.2.led = w.led
      else
        (internalKnxEvents k 255 d w).2.2.led
          = w.led ++ [(d._progLED, (internalKnxEvents k 255 d w).2.1._progState),
                      (d._progLED, (internalKnxEvents k 255 d w).2.1._progState)] ∧
        (internalKnxEvents k 255 d w).2.2.indicator = w.indicator) ∧
    (internalKnxEvents k 255 d w).2.2.commits = (memoryCommit d w).commits ∧
    (internalKnxEvents k 255 d w).2.2.commits
      = w.commits + (if d._eepromCommitFunc then 1 else 0) ∧
    (internalKnxEvents k 255 d w).2.2.sent = w.sent ++
      [[some k.PROTOCOLVERSION, some k.MSGTYPE_ACK, some k.ACK, some k.ERR_CODE_OK,
        some 0xFF, some 0xFF, some 0xFF, some 0xFF, some 0xFF, some 0xFF, some 0xFF,
        some 0xFF, some 0xFF, some 0xFF]] ∧
    (internalKnxEvents k 255 d w).2.2.eeprom = w.eeprom ∧
    (internalKnxEvents k 255 d w).2.2.restarts = w.restarts := by
  rw [dispatch_pmw k d w hv ht, handleMsgProgrammingModeWrite, if_pos haddr.symm]
  simp only [setProgState_eq, sendAck_eq, memoryCommit]
  cases hi : d._progIndicatorFunc <;> cases hc : d._eepromCommitFunc <;> simp

/-- C8 at a concrete input: the idle device is switched to programming mode. -/
theorem C8_programming_mode_write_witness :
    idleDevice._progState = false ∧
    (internalKnxEvents sampleConstants 255 idleDevice
        (sampleWorld progModeWriteFrame)).2.1._progState = true ∧
    (internalKnxEvents sampleConstants 255 idleDevice (sampleWorld progModeWriteFrame)).2.2.sent
      = (sampleWorld progModeWriteFrame).sent ++
        [[some sampleConstants.PROTOCOLVERSION, some sampleConstants.MSGTYPE_ACK,
          some sampleConstants.ACK, some sampleConstants.ERR_CODE_OK,
          some 0xFF, some 0xFF, some 0xFF, some 0xFF, some 0xFF, some 0xFF, some 0xFF,
          some 0xFF, some 0xFF, some 0xFF]] :=
  ⟨by decide,
   (C8_programming_mode_write sampleConstants idleDevice (sampleWorld progModeWriteFrame)
      (by decide) (by decide) (by decide)).1.2 (by decide),
   (C8_programming_mode_write sampleConstants idleDevice (sampleWorld progModeWriteFrame)
      (by decide) (by decide) (by decide)).2.2.2.2.2.1⟩

/-- C9 (Programming-Mode-Read): for a Programming-Mode-Read frame of the
supported version a frame is sent exactly when the device is in programming
mode; it is then the single frame carrying the device's bus address, padded with
`0xFF`; the device and the rest of the world do not change, and any other frame
with the same two header bytes gives the same device and the same sent
frames. -/
theorem C9_programming_mode_read (k : Constants) (d : KonnektingDevice) (w : World)
    (hv : byteAt w.rx 0 = k.PROTOCOLVERSION)
    (ht : byteAt w.rx 1 = k.MSGTYPE_PROGRAMMING_MODE_READ) :
    internalKnxEvents k 255 d w =
      (Exit.returned true, d,
        if d._progState then
          { w with sent := w.sent ++
            [[some k.PROTOCOLVERSION, some k.MSGTYPE_PROGRAMMING_MODE_RESPONSE,
              some (HI__ d._individualAddress), some (__LO d._individualAddress),
              some 0xFF, some 0xFF, some 0xFF, some 0xFF, some 0xFF, some 0xFF, some 0xFF,
              some 0xFF, some 0xFF, some 0xFF]] }
        else w) ∧
    ((internalKnxEvents k 255 d w).2.2.sent ≠ w.sent ↔ d._progState = true) ∧
    ∀ msg : Frame, byteAt msg 0 = k.PROTOCOLVERSION →
      byteAt msg 1 = k.MSGTYPE_PROGRAMMING_MODE_READ →
      (internalKnxEvents k 255 d { w with rx := msg }).2.1 = (internalKnxEvents k 255 d w).2.1 ∧
      (internalKnxEvents k 255 d { w with rx := msg }).2.2.sent
        = (internalKnxEvents k 255 d w).2.2.sent ∧
      (internalKnxEvents k 255 d { w with rx := msg }).2.2.eeprom
        = (internalKnxEvents k 255 d w).2.2.eeprom := by
  have key : ∀ v : World, byteAt v.rx 0 = k.PROTOCOLVERSION →
      byteAt v.rx 1 = k.MSGTYPE_PROGRAMMING_MODE_READ →
      internalKnxEvents k 255 d v =
        (Exit.returned true, d,
          if d._progState then
            { v with sent := v.sent ++
              [[some k.PROTOCOLVERSION, some k.MSGTYPE_PROGRAMMING_MODE_RESPONSE,
                some (HI__ d._individualAddress), some (__LO d._individualAddress),
                some 0xFF, some 0xFF, some 0xFF, some 0xFF, some 0xFF, some 0xFF, some 0xFF,
                some 0xFF, some 0xFF, some 0xFF]] }
          else v) := by
    intro v hv' ht'
    rw [dispatch_pmr k d v hv' ht', handleMsgProgrammingModeRead]
    cases d._progState <;>
      simp [knxWrite, Buf.frame_eq, fillEmpty_apply, Buf.set]
  refine ⟨key w hv ht, ?_, ?_⟩
  · rw [key w hv ht]
    cases d._progState <;> simp
  · intro msg hm0 hm1
    rw [key w hv ht, key { w with rx := msg } hm0 hm1]
    cases d._progState <;> simp

/-- C9 at a concrete input: the device in programming mode reports `0x1234`. -/
theorem C9_programming_mode_read_witness :
    sampleDevice._progState = true ∧
    ((internalKnxEvents sampleConstants 255 sampleDevice
        (sampleWorld progModeReadFrame)).2.2.sent ≠ (sampleWorld progModeReadFrame).sent ↔
      sampleDevice._progState = true) :=
  ⟨by decide,
   (C9_programming_mode_read sampleConstants sampleDevice (sampleWorld progModeReadFrame)
    (by decide) (by decide)).2.1⟩

/-- C10 (outbound frame invariant), evaluated at a failing input: a
Property-Page-Read frame addressed to the device with sub-page `0x01` makes the
device send the response buffer although no statement has assigned any of its
14 cells, so byte 0 is not `PROTOCOLVERSION` and byte 1 is no message type. -/
theorem C10_unassigned_frame_sent :
    byteAt propertyPageOneFrame 0 = sampleConstants.PROTOCOLVERSION ∧
    byteAt propertyPageOneFrame 1 = sampleConstants.MSGTYPE_PROPERTY_PAGE_READ ∧
    __WORD (byteAt propertyPageOneFrame 2) (byteAt propertyPageOneFrame 3)
      = sampleDevice._individualAddress ∧
    (internalKnxEvents sampleConstants 255 sampleDevice
        (sampleWorld propertyPageOneFrame)).2.2.sent
      = [[none, none, none, none, none, none, none, none, none, none, none, none, none,
          none]] := by
  decide

/-- C12 (prefix sum): for a size table of `_numberOfParams` entries and an index
`i` with `0 ≤ i ≤ _numberOfParams`, `calcParamSkipBytes(i)` is the sum of
`getParamSize(j)` over `j < i`, which is the sum of the first `i` table entries;
it is 0 at 0, grows by `getParamSize(i)` from `i` to `i + 1`, and is 0 for every
index `≤ 0`. -/
theorem C12_prefix_sum (d : KonnektingDevice) (w : World) (i : Nat)
    (hwf : d._numberOfParams = d._paramSizeList.length)
    (hi : (i : Int) ≤ d._numberOfParams) :
    calcParamSkipBytes d w (i : Int)
      = ∑ j in Finset.range i, (getParamSize d w (j : Int) : Int) ∧
    calcParamSkipBytes d w (i : Int) = (((d._paramSizeList.take i).sum : Nat) : Int) ∧
    calcParamSkipBytes d w 0 = 0 ∧
    (((i : Int) + 1 ≤ d._numberOfParams) →
      calcParamSkipBytes d w ((i : Int) + 1)
        = calcParamSkipBytes d w (i : Int) + (getParamSize d w (i : Int) : Int)) ∧
    (∀ j : Int, j ≤ 0 → calcParamSkipBytes d w j = 0) := by
  have hlen : i ≤ d._paramSizeList.length := by omega
  refine ⟨calcParamSkipBytes_nat d w i, ?_, ?_, ?_, ?_⟩
  · rw [calcParamSkipBytes_nat]
    exact sum_sizes_eq_take d w i hlen
  · simp [calcParamSkipBytes]
  · intro _
    have e : ((i : Int) + 1) = ((i + 1 : Nat) : Int) := by push_cast; ring
    rw [e, calcParamSkipBytes_nat, calcParamSkipBytes_nat, Finset.sum_range_succ]
  · intro j hj
    unfold calcParamSkipBytes
    rw [if_neg (by omega)]

/-- C12 at a concrete input: sizes 1, 2, 4, 11 and index 3. -/
theorem C12_prefix_sum_witness :
    paramDevice._numberOfParams = paramDevice._paramSizeList.length ∧
    calcParamSkipBytes paramDevice paramWorld ((3 : Nat) : Int)
      = ((([1, 2, 4, 11].take 3).sum : Nat) : Int) ∧
    calcParamSkipBytes paramDevice paramWorld ((3 : Nat) : Int) = 7 :=
  ⟨by decide,
   (C12_prefix_sum paramDevice paramWorld 3 (by decide) (by decide)).2.1,
   by decide⟩

/-- C13 (free store offset): after `internalInit` on a device whose size table
has `_numberOfParams` entries, `getFreeEepromOffset()` is
`EEPROM_COMOBJECTTABLE_START + 3 * N` (`N` the number of communication objects)
plus the sum of all configured sizes, which is the parameter-table start plus
`calcParamSkipBytes(_numberOfParams)`; with an empty table it is the start. -/
theorem C13_free_offset (k : Constants) (manufacturerID deviceID revisionID : Nat)
    (d0 : KonnektingDevice) (w0 w : World)
    (hwf : d0._numberOfParams = d0._paramSizeList.length) :
    (internalInit k manufacturerID deviceID revisionID d0 w0).2.1._paramTableStartindex
      = k.EEPROM_COMOBJECTTABLE_START + 3 * (w0.numberOfComObjects : Int) ∧
    getFreeEepromOffset (internalInit k manufacturerID deviceID revisionID d0 w0).2.1 w
      = k.EEPROM_COMOBJECTTABLE_START + 3 * (w0.numberOfComObjects : Int)
        + ((d0._paramSizeList.sum : Nat) : Int) ∧
    getFreeEepromOffset (internalInit k manufacturerID deviceID revisionID d0 w0).2.1 w
      = (internalInit k manufacturerID deviceID revisionID d0 w0).2.1._paramTableStartindex
        + calcParamSkipBytes (internalInit k manufacturerID deviceID revisionID d0 w0).2.1 w
            (internalInit k manufacturerID deviceID revisionID d0 w0).2.1._numberOfParams ∧
    (d0._paramSizeList = [] →
      getFreeEepromOffset (internalInit k manufacturerID deviceID revisionID d0 w0).2.1 w
        = k.EEPROM_COMOBJECTTABLE_START + 3 * (w0.numberOfComObjects : Int)) := by
  have hinit : (internalInit k manufacturerID deviceID revisionID d0 w0).2.1._paramTableStartindex
        = k.EEPROM_COMOBJECTTABLE_START + 3 * (w0.numberOfComObjects : Int) ∧
      (internalInit k manufacturerID deviceID revisionID d0 w0).2.1._numberOfParams
        = d0._numberOfParams ∧
      (internalInit k manufacturerID deviceID revisionID d0 w0).2.1._paramSizeList
        = d0._paramSizeList := by
    simp only [internalInit, setProgState_eq, memoryRead, reboot]
    split_ifs <;> exact ⟨by ring, rfl, rfl⟩
  obtain ⟨hbase, hn, hl⟩ := hinit
  generalize (internalInit k manufacturerID deviceID revisionID d0 w0).2.1 = d at hbase hn hl
  have hgen : getFreeEepromOffset d w
      = d._paramTableStartindex + ((d._paramSizeList.sum : Nat) : Int) := by
    unfold getFreeEepromOffset
    rw [sumLoop_eq, hn, hwf, Int.toNat_ofNat, ← hl,
      sum_sizes_eq_take d w _ (le_refl _), List.take_length]
  have hskip : calcParamSkipBytes d w d._numberOfParams
      = ((d._paramSizeList.sum : Nat) : Int) := by
    rw [hn, hwf, ← hl, calcParamSkipBytes_nat]
    exact (sum_sizes_eq_take d w _ (le_refl _)).trans (by rw [List.take_length])
  refine ⟨hbase, ?_, ?_, ?_⟩
  · rw [hgen, hbase, hl]
  · rw [hgen, hskip]
  · intro he
    rw [hgen, hbase, hl, he]
    simp

/-- C13 at a concrete input: two communication objects and the sizes 1, 2, 4,
11 give the offset 3 + 6 + 18. -/
theorem C13_free_offset_witness :
    paramDevice._numberOfParams = paramDevice._paramSizeList.length ∧
    getFreeEepromOffset
        (internalInit sampleConstants 0xDEAD 7 3 paramDevice
          { paramWorld with numberOfComObjects := 2 }).2.1 paramWorld
      = sampleConstants.EEPROM_COMOBJECTTABLE_START
        + 3 * (({ paramWorld with numberOfComObjects := 2 } : World).numberOfComObjects : Int)
        + ((paramDevice._paramSizeList.sum : Nat) : Int) ∧
    getFreeEepromOffset
        (internalInit sampleConstants 0xDEAD 7 3 paramDevice
          { paramWorld with numberOfComObjects := 2 }).2.1 paramWorld = 27 :=
  ⟨by decide,
   (C13_free_offset sampleConstants 0xDEAD 7 3 paramDevice
      { paramWorld with numberOfComObjects := 2 } paramWorld (by decide)).2.1,
   by decide⟩

/-- C14 (no-op out of range), evaluated at a failing input: for the index `-1`
the guard `index > _numberOfParams - 1` does not fire; the size is read at
`_paramSizeList[-1]`, outside the table, and the caller's buffer receives the
store byte at the parameter-table start, so the output follows the store
content.  For an index at or above `_numberOfParams` the call is a no-op. -/
theorem C14_negative_index_not_guarded :
    paramDevice._numberOfParams = 4 ∧
    getParamSize paramDevice paramWorld (-1) = paramWorld.outside (-1) ∧
    (Buf.fresh 0 = none ∧
      getParamValue paramDevice paramWorld (-1) Buf.fresh 0 = some 0x2A) ∧
    getParamValue paramDevice { paramWorld with eeprom := fun _ => 0x55 } (-1) Buf.fresh 0
      = some 0x55 ∧
    ∀ (d : KonnektingDevice) (w : World) (i : Int) (value : Buf),
      d._numberOfParams ≤ i → getParamValue d w i value = value := by
  refine ⟨by decide, by decide, by decide, by decide, ?_⟩
  intro d w i value hi
  unfold getParamValue
  rw [if_pos (by omega)]

/-- C15 (typed getter size mismatch): for an index inside the table the size the
getters test is the configured table entry, and a getter whose type size (1, 1,
2, 2, 4, 4, 11) differs from it returns 0, the empty text for
`getSTRING11Param`, whatever the persistent store holds. -/
theorem C15_size_mismatch (d : KonnektingDevice) (w : World) (i : Int)
    (hwf : d._numberOfParams = d._paramSizeList.length)
    (h0 : 0 ≤ i) (h1 : i < d._numberOfParams) :
    getParamSize d w i = d._paramSizeList.getD i.toNat 0 ∧
    (getParamSize d w i ≠ 1 → ∀ e : Int → Nat,
      getUINT8Param d { w with eeprom := e } i = some 0 ∧
      getINT8Param d { w with eeprom := e } i = some 0) ∧
    (getParamSize d w i ≠ 2 → ∀ e : Int → Nat,
      getUINT16Param d { w with eeprom := e } i = some 0 ∧
      getINT16Param d { w with eeprom := e } i = some 0) ∧
    (getParamSize d w i ≠ 4 → ∀ e : Int → Nat,
      getUINT32Param d { w with eeprom := e } i = some 0 ∧
      getINT32Param d { w with eeprom := e } i = some 0) ∧
    (getParamSize d w i ≠ 11 → ∀ e : Int → Nat,
      getSTRING11Param d { w with eeprom := e } i = some []) := by
  have hs : ∀ e : Int → Nat, getParamSize d { w with eeprom := e } i = getParamSize d w i :=
    fun _ => rfl
  refine ⟨?_, ?_, ?_, ?_, ?_⟩
  · unfold getParamSize paramSizeListAt
    rw [if_pos ⟨h0, by omega⟩]
  · intro h e
    simp only [getUINT8Param, getINT8Param, PARAM_UINT8, PARAM_INT8, hs e, ne_eq, h,
      not_false_eq_true, if_true, and_self]
  · intro h e
    simp only [getUINT16Param, getINT16Param, PARAM_UINT16, PARAM_INT16, hs e, ne_eq, h,
      not_false_eq_true, if_true, and_self]
  · intro h e
    simp only [getUINT32Param, getINT32Param, PARAM_UINT32, PARAM_INT32, hs e, ne_eq, h,
      not_false_eq_true, if_true, and_self]
  · intro h e
    simp only [getSTRING11Param, PARAM_STRING11, hs e, ne_eq, h, not_false_eq_true, if_true]

/-- C15 at a concrete input: parameter 1 has size 2, so the 1-byte, 4-byte and
text getters return their defaults. -/
theorem C15_size_mismatch_witness :
    getParamSize paramDevice paramWorld 1 = 2 ∧
    getUINT8Param paramDevice { paramWorld with eeprom := paramWorld.eeprom } 1 = some 0 ∧
    getINT32Param paramDevice { paramWorld with eeprom := paramWorld.eeprom } 1 = some 0 ∧
    getSTRING11Param paramDevice { paramWorld with eeprom := paramWorld.eeprom } 1 = some [] :=
  ⟨by decide,
   ((C15_size_mismatch paramDevice paramWorld 1 (by decide) (by decide) (by decide)).2.1
      (by decide) paramWorld.eeprom).1,
   ((C15_size_mismatch paramDevice paramWorld 1 (by decide) (by decide) (by decide)).2.2.2.1
      (by decide) paramWorld.eeprom).2,
   (C15_size_mismatch paramDevice paramWorld 1 (by decide) (by decide) (by decide)).2.2.2.2
      (by decide) paramWorld.eeprom⟩

/-- C16 (typed getter, index out of range), evaluated at failing inputs: the
table has the indices 0..3 and the memory around it holds the byte 1.  For the
index `-1` `getUINT8Param` returns the store byte at the parameter-table start
(`0x2A`, or `0x55` with another store), and for the index 4 `getUINT8Param` and
`getINT8Param` return the never-assigned cell of their local buffer; with the
byte 11 around the table `getSTRING11Param(4)` reads unassigned cells too. -/
theorem C16_out_of_range_getters :
    paramDevice._numberOfParams = 4 ∧
    getUINT8Param paramDevice paramWorld (-1) = some 0x2A ∧
    getUINT8Param paramDevice { paramWorld with eeprom := fun _ => 0x55 } (-1) = some 0x55 ∧
    getUINT8Param paramDevice paramWorld 4 = none ∧
    getINT8Param paramDevice paramWorld 4 = none ∧
    getSTRING11Param paramDevice { paramWorld with outside := fun _ => 11 } 4 = none := by
  decide

/-- C17 (text truncation): for a parameter `i` inside the table whose configured
size is 11, with `b j` the store byte at offset `j` of the parameter,
`getSTRING11Param(i)` returns `b 0 .. b 10` cut at the first `0x00`: the first `k`
bytes when `b k` is the first `0x00`, all 11 when none is; the text has at most
11 characters and no `0x00` among them. -/
theorem C17_text_truncation (d : KonnektingDevice) (w : World) (i : Nat)
    (hwf : d._numberOfParams = d._paramSizeList.length)
    (hi : (i : Int) < d._numberOfParams)
    (hsize : getParamSize d w (i : Int) = 11) :
    getSTRING11Param d w (i : Int)
      = some (((List.range 11).map (fun j : Nat =>
          memoryRead w (d._paramTableStartindex + calcParamSkipBytes d w (i : Int) + (j : Int)))
        ).takeWhile (fun c : Nat => c != 0)) ∧
    (∀ s : List Nat, getSTRING11Param d w (i : Int) = some s → s.length ≤ 11 ∧ 0 ∉ s) ∧
    (∀ k : Nat, k ≤ 11 →
      (∀ j : Nat, j < k →
        memoryRead w (d._paramTableStartindex + calcParamSkipBytes d w (i : Int) + (j : Int)) ≠ 0) →
      (k = 11 ∨
        memoryRead w (d._paramTableStartindex + calcParamSkipBytes d w (i : Int) + (k : Int)) = 0) →
      getSTRING11Param d w (i : Int)
        = some ((List.range k).map (fun j : Nat =>
            memoryRead w (d._paramTableStartindex + calcParamSkipBytes d w (i : Int) + (j : Int))))) := by
  have _ := hwf
  have main : getSTRING11Param d w (i : Int)
      = some (((List.range 11).map (fun j : Nat =>
          memoryRead w (d._paramTableStartindex + calcParamSkipBytes d w (i : Int) + (j : Int)))
        ).takeWhile (fun c : Nat => c != 0)) := by
    unfold getSTRING11Param
    rw [hsize, if_neg (by simp [PARAM_STRING11])]
    unfold getParamValue
    rw [if_neg (by omega), hsize]
    simp only [PARAM_STRING11]
    rw [string11Loop_eq _ (fun j : Nat =>
      memoryRead w (d._paramTableStartindex + calcParamSkipBytes d w (i : Int) + (j : Int))) 11 0 []]
    · simp [List.range_eq_range']
    · intro j hj
      rw [paramLoop_apply, if_pos (by omega)]
  refine ⟨main, ?_, ?_⟩
  · intro s hs
    rw [main] at hs
    injection hs with hs
    subst hs
    constructor
    · exact le_trans (List.takeWhile_sublist _).length_le (by simp)
    · intro hmem
      have := List.mem_takeWhile_imp hmem
      simp at this
  · intro k hk hpre hend
    rw [main]
    congr 1
    rw [takeWhile_eq_take _ k (by simpa using hk)]
    · rw [← List.map_take, List.take_range]
      congr 2
      omega
    · intro j hj
      rw [List.getD_eq_getElem _ _ (by simp; omega)]
      simpa using hpre j hj
    · rcases hend with hend | hend
      · left; simp [hend]
      · by_cases hk11 : k = 11
        · left; simp [hk11]
        · right
          rw [List.getD_eq_getElem _ _ (by simp; omega)]
          simpa using hend

/-- C17 at a concrete input: the text parameter holds `K N X 0x00 ...`. -/
theorem C17_text_truncation_witness :
    getParamSize paramDevice paramWorld ((3 : Nat) : Int) = 11 ∧
    getSTRING11Param paramDevice paramWorld ((3 : Nat) : Int)
      = some (((List.range 11).map (fun j : Nat =>
          memoryRead paramWorld (paramDevice._paramTableStartindex
            + calcParamSkipBytes paramDevice paramWorld ((3 : Nat) : Int) + (j : Int)))
        ).takeWhile (fun c : Nat => c != 0)) ∧
    getSTRING11Param paramDevice paramWorld ((3 : Nat) : Int) = some [75, 78, 88] :=
  ⟨by decide,
   (C17_text_truncation paramDevice paramWorld 3 (by decide) (by decide) (by decide)).1,
   by decide⟩

/-- C18 (forced reboot): on a device with last-toggle time 0, rapid-toggle
counter 0 and no reboot required (what `internalInit` leaves for the first
two), (a) three `toggleProgState` calls at `millis()` readings `t1 ≤ t2 ≤ t3`
with `t2 - t1 < 300` and `t3 - t2 < 300` request no restart at the first and the
second call, which return, and one restart at the third, which ends in it; (b)
a run of calls in which every call comes at least 300 ms after the one before
requests no restart at all, and every call returns. -/
theorem C18_forced_reboot (d : KonnektingDevice) (w : World)
    (hl : d._lastProgbtn = 0) (hc : d._progbtnCount = 0) (hr : d._rebootRequired = false) :
    (∀ t1 t2 t3 : Nat, t1 ≤ t2 → t2 ≤ t3 → t3 < 2 ^ 32 → t2 - t1 < 300 → t3 - t2 < 300 →
      (toggleAll [t1] (d, w)).2.2.restarts = w.restarts ∧
      (toggleAll [t1, t2] (d, w)).2.2.restarts = w.restarts ∧
      (toggleAll [t1, t2, t3] (d, w)).2.2.restarts = w.restarts + 1 ∧
      (toggleAll [t1] (d, w)).1 = Exit.returned () ∧
      (toggleAll [t1, t2] (d, w)).1 = Exit.returned () ∧
      (toggleAll [t1, t2, t3] (d, w)).1 = Exit.restarted) ∧
    (∀ ts : List Nat, ts.Chain' (fun a b => a + 300 ≤ b) → (∀ t ∈ ts, t < 2 ^ 32) →
      (toggleAll ts (d, w)).2.2.restarts = w.restarts ∧
      (toggleAll ts (d, w)).1 = Exit.returned ()) ∧
    (∀ (k : Constants) (manufacturerID deviceID revisionID : Nat) (d0 : KonnektingDevice)
        (w0 : World),
      (internalInit k manufacturerID deviceID revisionID d0 w0).2.1._lastProgbtn = 0 ∧
      (internalInit k manufacturerID deviceID revisionID d0 w0).2.1._progbtnCount = 0 ∧
      (internalInit k manufacturerID deviceID revisionID d0 w0).2.1._rebootRequired
        = d0._rebootRequired) := by
  have _ := hl
  refine ⟨?_, ?_, ?_⟩
  · intro t1 t2 t3 h12 h23 h3 hd12 hd23
    obtain ⟨q1, q2, q3, q4, q5⟩ := toggleAt_quiet t1 (d, w) (by omega) hr (Or.inl hc)
    obtain ⟨r2, n2, e2, f2⟩ := toggleAt_fields t2 (toggleAt t1 (d, w)).2
    have hn2 : ¬ ((t2 % 2 ^ 32 + 2 ^ 32 - (toggleAt t1 (d, w)).2.1._lastProgbtn % 2 ^ 32)
        % 2 ^ 32 < 300 ∧ (toggleAt t1 (d, w)).2.1._progbtnCount + 1 = 3) := by
      rw [q3]; omega
    have hno2 : ¬ (((t2 % 2 ^ 32 + 2 ^ 32 - (toggleAt t1 (d, w)).2.1._lastProgbtn % 2 ^ 32)
        % 2 ^ 32 < 300 ∧ (toggleAt t1 (d, w)).2.1._progbtnCount + 1 = 3) ∨
        (toggleAt t1 (d, w)).2.1._rebootRequired = true) := by
      rw [q2]
      exact not_or.mpr ⟨hn2, by decide⟩
    obtain ⟨l2, c2⟩ := f2 hn2
    rw [q2] at r2
    rw [q4, q3, if_pos (by omega)] at c2
    rw [if_neg hno2, q1] at n2
    rw [if_neg hno2] at e2
    obtain ⟨-, n3, e3, -⟩ := toggleAt_fields t3 (toggleAt t2 (toggleAt t1 (d, w)).2).2
    have hy3 : ((t3 % 2 ^ 32 + 2 ^ 32
        - (toggleAt t2 (toggleAt t1 (d, w)).2).2.1._lastProgbtn % 2 ^ 32) % 2 ^ 32 < 300 ∧
        (toggleAt t2 (toggleAt t1 (d, w)).2).2.1._progbtnCount + 1 = 3) ∨
        (toggleAt t2 (toggleAt t1 (d, w)).2).2.1._rebootRequired = true := by
      left
      rw [l2, c2]
      exact ⟨by omega, rfl⟩
    rw [if_pos hy3, n2] at n3
    rw [if_pos hy3] at e3
    have a1 : toggleAll [t1] (d, w) = (Exit.returned (), (toggleAt t1 (d, w)).2) := by
      rw [toggleAll_cons_returned t1 [] (d, w) q5]
      rfl
    have a2 : toggleAll [t1, t2] (d, w)
        = (Exit.returned (), (toggleAt t2 (toggleAt t1 (d, w)).2).2) := by
      rw [toggleAll_cons_returned t1 [t2] (d, w) q5,
        toggleAll_cons_returned t2 [] (toggleAt t1 (d, w)).2 e2]
      rfl
    have a3 : toggleAll [t1, t2, t3] (d, w)
        = toggleAt t3 (toggleAt t2 (toggleAt t1 (d, w)).2).2 := by
      rw [toggleAll_cons_returned t1 [t2, t3] (d, w) q5,
        toggleAll_cons_returned t2 [t3] (toggleAt t1 (d, w)).2 e2,
        toggleAll_cons_restarted t3 [] (toggleAt t2 (toggleAt t1 (d, w)).2).2 e3]
    rw [a1, a2, a3]
    exact ⟨q1, n2, n3, rfl, rfl, e3⟩
  · intro ts hchain hlt
    exact toggleAll_quiet ts (d, w) hchain hlt hr (Or.inl hc)
  · intro k m dv rv d0 w0
    simp only [internalInit, setProgState_eq, memoryRead, reboot]
    split_ifs <;> exact ⟨rfl, rfl, rfl⟩

/-- C18 at the inputs of the claim: toggles at 0, 100, 200 ms request a restart
at the third call, toggles at 0, 400, 800 ms request none. -/
theorem C18_forced_reboot_witness :
    (idleDevice._lastProgbtn = 0 ∧ idleDevice._progbtnCount = 0 ∧
      idleDevice._rebootRequired = false) ∧
    ((toggleAll [0] (idleDevice, sampleWorld [])).2.2.restarts = (sampleWorld []).restarts ∧
      (toggleAll [0, 100] (idleDevice, sampleWorld [])).2.2.restarts
        = (sampleWorld []).restarts ∧
      (toggleAll [0, 100, 200] (idleDevice, sampleWorld [])).2.2.restarts
        = (sampleWorld []).restarts + 1 ∧
      (toggleAll [0] (idleDevice, sampleWorld [])).1 = Exit.returned () ∧
      (toggleAll [0, 100] (idleDevice, sampleWorld [])).1 = Exit.returned () ∧
      (toggleAll [0, 100, 200] (idleDevice, sampleWorld [])).1 = Exit.restarted) ∧
    ((toggleAll [0, 400, 800] (idleDevice, sampleWorld [])).2.2.restarts
        = (sampleWorld []).restarts ∧
      (toggleAll [0, 400, 800] (idleDevice, sampleWorld [])).1 = Exit.returned ()) :=
  ⟨by decide,
   (C18_forced_reboot idleDevice (sampleWorld []) (by decide) (by decide) (by decide)).1
      0 100 200 (by decide) (by decide) (by decide) (by decide) (by decide),
   (C18_forced_reboot idleDevice (sampleWorld []) (by decide) (by decide) (by decide)).2.1
      [0, 400, 800] (by simp) (by decide)⟩

/-- C20 (factory detection): `isFactorySetting()` is true exactly when the
flags byte is `0xFF`, and `isReadyForApplication()` is true exactly when the
device is outside programming mode and the flags byte is not `0xFF`. -/
theorem C20_factory_detection (d : KonnektingDevice) :
    (isFactorySetting d = true ↔ d._deviceFlags = 0xFF) ∧
    (isReadyForApplication d = true ↔ (d._progState = false ∧ d._deviceFlags ≠ 0xFF)) := by
  constructor
  · simp [isFactorySetting]
  · simp [isReadyForApplication, isProgState, isFactorySetting]

/-- C21 (address and table loading at init): for a store of bytes and at most
255 communication objects, `internalInit` returns when `Knx.begin` answers
`KNX_DEVICE_OK` and ends in `reboot()` otherwise; in both cases the cached flags
byte is then the store byte at `EEPROM_DEVICE_FLAGS` and programming mode is
off; when that byte is `0xFF` the bus address is `P_ADDR(1, 1, 254)` and no
communication-object address is set; otherwise the bus address is
`256 * store[HI] + store[LO]` and object `i`, for each `i` below the number of
communication objects in rising order, is given the address
`256 * store[base + 3i] + store[base + 3i + 1]` and is active exactly when bit 7
of `store[base + 3i + 2]` is set. -/
theorem C21_init_loading (k : Constants) (manufacturerID deviceID revisionID : Nat)
    (d0 : KonnektingDevice) (w0 : World)
    (hbytes : ∀ a : Int, w0.eeprom a < 256)
    (hN : w0.numberOfComObjects ≤ 255) :
    (internalInit k manufacturerID deviceID revisionID d0 w0).2.1._deviceFlags
      = w0.eeprom k.EEPROM_DEVICE_FLAGS ∧
    (internalInit k manufacturerID deviceID revisionID d0 w0).2.1._progState = false ∧
    (w0.eeprom k.EEPROM_DEVICE_FLAGS = 0xFF →
      (internalInit k manufacturerID deviceID revisionID d0 w0).2.1._individualAddress
        = k.P_ADDR 1 1 254 ∧
      (internalInit k manufacturerID deviceID revisionID d0 w0).2.2.comObjectAddress
        = w0.comObjectAddress) ∧
    (w0.eeprom k.EEPROM_DEVICE_FLAGS ≠ 0xFF →
      (internalInit k manufacturerID deviceID revisionID d0 w0).2.1._individualAddress
        = 256 * w0.eeprom k.EEPROM_INDIVIDUALADDRESS_HI
          + w0.eeprom k.EEPROM_INDIVIDUALADDRESS_LO ∧
      (internalInit k manufacturerID deviceID revisionID d0 w0).2.2.comObjectAddress
        = w0.comObjectAddress ++ (List.range w0.numberOfComObjects).map (fun i : Nat =>
            (i,
              256 * w0.eeprom (k.EEPROM_COMOBJECTTABLE_START + 3 * (i : Int))
                + w0.eeprom (k.EEPROM_COMOBJECTTABLE_START + 3 * (i : Int) + 1),
              (w0.eeprom (k.EEPROM_COMOBJECTTABLE_START + 3 * (i : Int) + 2)).testBit 7))) ∧
    (internalInit k manufacturerID deviceID revisionID d0 w0).1
      = (if w0.knxDeviceOk then Exit.returned () else Exit.restarted) := by
  have _ := hN
  have hword : ∀ a b : Int, (w0.eeprom a * 256 + w0.eeprom b) % 65536
      = 256 * w0.eeprom a + w0.eeprom b := by
    intro a b
    have := hbytes a
    have := hbytes b
    omega
  simp only [internalInit, setProgState_eq, memoryRead, isFactorySetting, comObjLoop_eq,
    knxBegin, reboot, __WORD]
  by_cases hf : w0.eeprom k.EEPROM_DEVICE_FLAGS = 0xFF
  · cases hp : d0._progIndicatorFunc <;> cases hk : w0.knxDeviceOk <;> simp [hf, hp, hk]
  · cases hp : d0._progIndicatorFunc <;> cases hk : w0.knxDeviceOk <;>
      simp [hf, hp, hk, hword] <;>
      (intro a _
       rw [mul_comm (a : Int) 3]
       exact ⟨rfl, and_0x80 _⟩)

/-- C21 at concrete inputs: the provisioned store gives the bus address `0x1105`
and the two table entries. -/
theorem C21_init_loading_witness :
    provisionedWorld.numberOfComObjects ≤ 255 ∧
    provisionedWorld.eeprom sampleConstants.EEPROM_DEVICE_FLAGS ≠ 0xFF ∧
    (internalInit sampleConstants 0xDEAD 7 3 sampleDevice provisionedWorld).2.1._deviceFlags
      = provisionedWorld.eeprom sampleConstants.EEPROM_DEVICE_FLAGS ∧
    (internalInit sampleConstants 0xDEAD 7 3 sampleDevice provisionedWorld).2.1._progState
      = false ∧
    (internalInit sampleConstants 0xDEAD 7 3 sampleDevice provisionedWorld).2.1._individualAddress
      = 0x1105 ∧
    (internalInit sampleConstants 0xDEAD 7 3 sampleDevice provisionedWorld).2.2.comObjectAddress
      = [(0, 0x0A01, true), (1, 0x0A02, false)] :=
  ⟨by decide, by decide,
   (C21_init_loading sampleConstants 0xDEAD 7 3 sampleDevice provisionedWorld
      provisionedWorld_bytes
      (by decide)).1,
   (C21_init_loading sampleConstants 0xDEAD 7 3 sampleDevice provisionedWorld
      provisionedWorld_bytes
      (by decide)).2.1,
   by decide, by decide⟩

/-- C22 (restart): for a Restart frame of the supported version a restart is
requested exactly when the target address in bytes 2..3 is the device's bus
address (then exactly once, and the call ends in it; otherwise the call returns
true); in both cases no frame is sent, the store and its write log keep their
content, and the device, programming mode included, is unchanged. -/
theorem C22_restart (k : Constants) (d : KonnektingDevice) (w : World)
    (hv : byteAt w.rx 0 = k.PROTOCOLVERSION)
    (ht : byteAt w.rx 1 = k.MSGTYPE_RESTART) :
    ((internalKnxEvents k 255 d w).2.2.restarts ≠ w.restarts ↔
      __WORD (byteAt w.rx 2) (byteAt w.rx 3) = d._individualAddress) ∧
    (internalKnxEvents k 255 d w).2.2.restarts = w.restarts +
      (if __WORD (byteAt w.rx 2) (byteAt w.rx 3) = d._individualAddress then 1 else 0) ∧
    (internalKnxEvents k 255 d w).2.2.sent = w.sent ∧
    (internalKnxEvents k 255 d w).2.2.eeprom = w.eeprom ∧
    (internalKnxEvents k 255 d w).2.2.writes = w.writes ∧
    (internalKnxEvents k 255 d w).2.1 = d ∧
    (internalKnxEvents k 255 d w).2.1._progState = d._progState ∧
    (internalKnxEvents k 255 d w).1 =
      (if __WORD (byteAt w.rx 2) (byteAt w.rx 3) = d._individualAddress
        then Exit.restarted else Exit.returned true) := by
  rw [dispatch_rst k d w hv ht, handleMsgRestart_eq]
  by_cases h : __WORD (byteAt w.rx 2) (byteAt w.rx 3) = d._individualAddress
  · simp [h, Exit.andReturn]
  · have h' : ¬ d._individualAddress = __WORD (byteAt w.rx 2) (byteAt w.rx 3) :=
      fun e => h e.symm
    simp [h, h', Exit.andReturn]

/-- C22 at a concrete input: a Restart frame addressed to the device `0x1234`. -/
theorem C22_restart_witness :
    __WORD (byteAt (sampleWorld restartFrame).rx 2) (byteAt (sampleWorld restartFrame).rx 3)
      = sampleDevice._individualAddress ∧
    (internalKnxEvents sampleConstants 255 sampleDevice (sampleWorld restartFrame)).2.2.restarts
      ≠ (sampleWorld restartFrame).restarts ∧
    (internalKnxEvents sampleConstants 255 sampleDevice (sampleWorld restartFrame)).2.2.sent
      = (sampleWorld restartFrame).sent :=
  ⟨by decide,
   (C22_restart sampleConstants sampleDevice (sampleWorld restartFrame)
      (by decide) (by decide)).1.2 (by decide),
   (C22_restart sampleConstants sampleDevice (sampleWorld restartFrame)
      (by decide) (by decide)).2.2.1⟩

/-- C24 as stated fails: on the third rapid toggle (rapid-toggle counter 2, last
toggle 100 ms before) `toggleProgState` ends in the forced `reboot()` before it
toggles: the programming-mode state is not negated and neither the LED pin nor
an indicator function has been written. -/
theorem C24_counterexample :
    twiceToggledDevice._progbtnCount = 2 ∧ twiceToggledDevice._lastProgbtn = 100 ∧
    (toggleAt 200 (twiceToggledDevice, sampleWorld [])).1 = Exit.restarted ∧
    (toggleAt 200 (twiceToggledDevice, sampleWorld [])).2.1._progState
      = twiceToggledDevice._progState ∧
    (toggleAt 200 (twiceToggledDevice, sampleWorld [])).2.1._progState
      ≠ !twiceToggledDevice._progState ∧
    (toggleAt 200 (twiceToggledDevice, sampleWorld [])).2.2.led = (sampleWorld []).led ∧
    (toggleAt 200 (twiceToggledDevice, sampleWorld [])).2.2.indicator
      = (sampleWorld []).indicator := by
  decide

/-- C24 (toggle flips the mode), as amended: unless the call is the third rapid
toggle, `toggleProgState` negates the programming-mode state and sets the
indicator to the new state in the same call (through the registered function
when there is one, on the LED pin otherwise), and then returns, or ends in
`reboot()` when `_rebootRequired` is set; on the third rapid toggle it ends in
`reboot()` with the state and the indicator untouched; and of two calls in a row
that both return the second restores the original state. -/
theorem C24_toggle_flips (d : KonnektingDevice) (w : World) :
    (¬ ((w.millis % 2 ^ 32 + 2 ^ 32 - d._lastProgbtn % 2 ^ 32) % 2 ^ 32 < 300 ∧
        d._progbtnCount + 1 = 3) →
      (toggleProgState d w).2.1._progState = (!d._progState) ∧
      (if d._progIndicatorFunc then
          (toggleProgState d w).2.2.indicator = w.indicator ++ [!d._progState] ∧
          (toggleProgState d w).2.2.led = w.led
        else
          (toggleProgState d w).2.2.led
            = w.led ++ [(d._progLED, !d._progState), (d._progLED, !d._progState)] ∧
          (toggleProgState d w).2.2.indicator = w.indicator) ∧
      (toggleProgState d w).1
        = (if d._rebootRequired then Exit.restarted else Exit.returned ())) ∧
    (((w.millis % 2 ^ 32 + 2 ^ 32 - d._lastProgbtn % 2 ^ 32) % 2 ^ 32 < 300 ∧
        d._progbtnCount + 1 = 3) →
      (toggleProgState d w).1 = Exit.restarted ∧
      (toggleProgState d w).2.1._progState = d._progState ∧
      (toggleProgState d w).2.2.indicator = w.indicator ∧
      (toggleProgState d w).2.2.led = w.led) ∧
    (∀ t : Nat, (toggleProgState d w).1 = Exit.returned () →
      (toggleAt t (toggleProgState d w).2).1 = Exit.returned () →
      (toggleAt t (toggleProgState d w).2).2.1._progState = d._progState) := by
  refine ⟨?_, ?_, ?_⟩
  · intro h
    refine ⟨((toggleProgState_fields d w).2.2.2 h).2.2, toggleProgState_indicator d w h, ?_⟩
    rw [toggleProgState_regular d w h]
  · intro h
    rw [toggleProgState_forced d w h]
    exact ⟨rfl, rfl, rfl, rfl⟩
  · intro t h1 h2
    have n1 : ¬ ((w.millis % 2 ^ 32 + 2 ^ 32 - d._lastProgbtn % 2 ^ 32) % 2 ^ 32 < 300 ∧
        d._progbtnCount + 1 = 3) := by
      intro h
      rw [toggleProgState_forced d w h] at h1
      exact absurd h1 (by simp)
    have p1 := ((toggleProgState_fields d w).2.2.2 n1).2.2
    generalize toggleProgState d w = r at h1 h2 p1 ⊢
    have n2 : ¬ ((({ r.2.2 with millis := t } : World).millis % 2 ^ 32 + 2 ^ 32
        - r.2.1._lastProgbtn % 2 ^ 32) % 2 ^ 32 < 300 ∧ r.2.1._progbtnCount + 1 = 3) := by
      intro h
      unfold toggleAt at h2
      rw [toggleProgState_forced r.2.1 _ h] at h2
      exact absurd h2 (by simp)
    unfold toggleAt
    rw [((toggleProgState_fields r.2.1 { r.2.2 with millis := t }).2.2.2 n2).2.2, p1]
    simp

/-- C24 as amended, at a concrete input: the idle device, toggled at 0 ms and
again at 400 ms, is back outside programming mode. -/
theorem C24_toggle_flips_witness :
    (toggleProgState idleDevice (sampleWorld [])).1 = Exit.returned () ∧
    (toggleAt 400 (toggleProgState idleDevice (sampleWorld [])).2).1 = Exit.returned () ∧
    (toggleAt 400 (toggleProgState idleDevice (sampleWorld [])).2).2.1._progState
      = idleDevice._progState :=
  ⟨by decide, by decide,
   (C24_toggle_flips idleDevice (sampleWorld [])).2.2 400 (by decide) (by decide)⟩

/-- C28 (parameter layout is non-overlapping and bounded): for a size table of
`_numberOfParams` entries and `i < j < _numberOfParams`, `getParamValue(i, .)`
reads exactly the store bytes at `base + calcParamSkipBytes(i) + t` for
`t < getParamSize(i)`, with `base` the parameter-table start; this range ends at
or before the start of the range of `j`, starts at or after `base`, and ends at
or before `getFreeEepromOffset()`, and so does the range of `j`. -/
theorem C28_parameter_layout (d : KonnektingDevice) (w : World) (i j : Nat)
    (hwf : d._numberOfParams = d._paramSizeList.length)
    (hij : i < j) (hj : (j : Int) < d._numberOfParams) :
    (∀ t : Nat, getParamValue d w (i : Int) Buf.fresh t =
      if t < getParamSize d w (i : Int) then
        some (memoryRead w
          (d._paramTableStartindex + calcParamSkipBytes d w (i : Int) + (t : Int)))
      else none) ∧
    d._paramTableStartindex + calcParamSkipBytes d w (i : Int)
        + (getParamSize d w (i : Int) : Int)
      ≤ d._paramTableStartindex + calcParamSkipBytes d w (j : Int) ∧
    d._paramTableStartindex ≤ d._paramTableStartindex + calcParamSkipBytes d w (i : Int) ∧
    d._paramTableStartindex + calcParamSkipBytes d w (i : Int)
        + (getParamSize d w (i : Int) : Int) ≤ getFreeEepromOffset d w ∧
    d._paramTableStartindex ≤ d._paramTableStartindex + calcParamSkipBytes d w (j : Int) ∧
    d._paramTableStartindex + calcParamSkipBytes d w (j : Int)
        + (getParamSize d w (j : Int) : Int) ≤ getFreeEepromOffset d w := by
  have hmono : ∀ a b : Nat, a ≤ b →
      ∑ t in Finset.range a, getParamSize d w (t : Int)
        ≤ ∑ t in Finset.range b, getParamSize d w (t : Int) := by
    intro a b hab
    exact Finset.sum_le_sum_of_subset (Finset.range_mono hab)
  have hsucc : ∀ a : Nat,
      ∑ t in Finset.range a, getParamSize d w (t : Int) + getParamSize d w (a : Int)
        = ∑ t in Finset.range (a + 1), getParamSize d w (t : Int) := by
    intro a
    rw [Finset.sum_range_succ]
  have hlen : j < d._paramSizeList.length := by omega
  have h1 := hmono (i + 1) j (by omega)
  have h2 := hmono (i + 1) d._paramSizeList.length (by omega)
  have h3 := hmono (j + 1) d._paramSizeList.length (by omega)
  have s1 := hsucc i
  have s2 := hsucc j
  rw [getFreeEepromOffset_eq d w hwf, calcParamSkipBytes_cast, calcParamSkipBytes_cast,
    calcParamSkipBytes_cast]
  refine ⟨?_, ?_, ?_, ?_, ?_, ?_⟩
  · intro t
    rw [← calcParamSkipBytes_cast]
    exact getParamValue_apply d w (i : Int) Buf.fresh (by omega) t
  all_goals omega

/-- C28 at a concrete input: parameters 1 and 3 of the sizes 1, 2, 4, 11. -/
theorem C28_parameter_layout_witness :
    paramDevice._numberOfParams = paramDevice._paramSizeList.length ∧
    paramDevice._paramTableStartindex + calcParamSkipBytes paramDevice paramWorld ((1 : Nat) : Int)
        + (getParamSize paramDevice paramWorld ((1 : Nat) : Int) : Int)
      ≤ paramDevice._paramTableStartindex
        + calcParamSkipBytes paramDevice paramWorld ((3 : Nat) : Int) ∧
    paramDevice._paramTableStartindex + calcParamSkipBytes paramDevice paramWorld ((3 : Nat) : Int)
        + (getParamSize paramDevice paramWorld ((3 : Nat) : Int) : Int)
      ≤ getFreeEepromOffset paramDevice paramWorld :=
  ⟨by decide,
   (C28_parameter_layout paramDevice paramWorld 1 3 (by decide) (by decide) (by decide)).2.1,
   (C28_parameter_layout paramDevice paramWorld 1 3 (by decide) (by decide)
      (by decide)).2.2.2.2.2⟩

/-- C29 (big-endian parameter decoding): for a parameter `i` inside the table,
a store of bytes and `o` the parameter-table start plus `calcParamSkipBytes(i)`:
with size 1 `getUINT8Param` is `store[o]`; with size 2 `getUINT16Param` is
`256 * store[o] + store[o+1]`; with size 4 `getUINT32Param` is
`2^24 * store[o] + 2^16 * store[o+1] + 2^8 * store[o+2] + store[o+3]`; and
`getINT8Param`, `getINT16Param`, `getINT32Param` are the two's-complement values
of the same 8, 16 and 32 bits: the unsigned value below `2^7`, `2^15`, `2^31`,
that value minus `2^8`, `2^16`, `2^32` from there on. -/
theorem C29_big_endian_decoding (d : KonnektingDevice) (w : World) (i : Nat)
    (hi : (i : Int) < d._numberOfParams)
    (hbytes : ∀ a : Int, w.eeprom a < 256) :
    (getParamSize d w (i : Int) = 1 →
      getUINT8Param d w (i : Int)
        = some (w.eeprom (d._paramTableStartindex + calcParamSkipBytes d w (i : Int))) ∧
      getINT8Param d w (i : Int)
        = some (if w.eeprom (d._paramTableStartindex + calcParamSkipBytes d w (i : Int)) < 2 ^ 7
            then (w.eeprom (d._paramTableStartindex + calcParamSkipBytes d w (i : Int)) : Int)
            else (w.eeprom (d._paramTableStartindex + calcParamSkipBytes d w (i : Int)) : Int)
              - 2 ^ 8)) ∧
    (getParamSize d w (i : Int) = 2 →
      getUINT16Param d w (i : Int)
        = some (256 * w.eeprom (d._paramTableStartindex + calcParamSkipBytes d w (i : Int))
            + w.eeprom (d._paramTableStartindex + calcParamSkipBytes d w (i : Int) + 1)) ∧
      getINT16Param d w (i : Int)
        = some (if 256 * w.eeprom (d._paramTableStartindex + calcParamSkipBytes d w (i : Int))
              + w.eeprom (d._paramTableStartindex + calcParamSkipBytes d w (i : Int) + 1) < 2 ^ 15
            then ((256 * w.eeprom (d._paramTableStartindex + calcParamSkipBytes d w (i : Int))
              + w.eeprom (d._paramTableStartindex + calcParamSkipBytes d w (i : Int) + 1) : Nat)
                : Int)
            else ((256 * w.eeprom (d._paramTableStartindex + calcParamSkipBytes d w (i : Int))
              + w.eeprom (d._paramTableStartindex + calcParamSkipBytes d w (i : Int) + 1) : Nat)
                : Int) - 2 ^ 16)) ∧
    (getParamSize d w (i : Int) = 4 →
      getUINT32Param d w (i : Int)
        = some (2 ^ 24 * w.eeprom (d._paramTableStartindex + calcParamSkipBytes d w (i : Int))
            + 2 ^ 16 * w.eeprom (d._paramTableStartindex + calcParamSkipBytes d w (i : Int) + 1)
            + 2 ^ 8 * w.eeprom (d._paramTableStartindex + calcParamSkipBytes d w (i : Int) + 2)
            + w.eeprom (d._paramTableStartindex + calcParamSkipBytes d w (i : Int) + 3)) ∧
      getINT32Param d w (i : Int)
        = some (if 2 ^ 24 * w.eeprom (d._paramTableStartindex + calcParamSkipBytes d w (i : Int))
              + 2 ^ 16 * w.eeprom (d._paramTableStartindex + calcParamSkipBytes d w (i : Int) + 1)
              + 2 ^ 8 * w.eeprom (d._paramTableStartindex + calcParamSkipBytes d w (i : Int) + 2)
              + w.eeprom (d._paramTableStartindex + calcParamSkipBytes d w (i : Int) + 3) < 2 ^ 31
            then ((2 ^ 24 * w.eeprom (d._paramTableStartindex + calcParamSkipBytes d w (i : Int))
              + 2 ^ 16 * w.eeprom (d._paramTableStartindex + calcParamSkipBytes d w (i : Int) + 1)
              + 2 ^ 8 * w.eeprom (d._paramTableStartindex + calcParamSkipBytes d w (i : Int) + 2)
              + w.eeprom (d._paramTableStartindex + calcParamSkipBytes d w (i : Int) + 3) : Nat)
                : Int)
            else ((2 ^ 24 * w.eeprom (d._paramTableStartindex + calcParamSkipBytes d w (i : Int))
              + 2 ^ 16 * w.eeprom (d._paramTableStartindex + calcParamSkipBytes d w (i : Int) + 1)
              + 2 ^ 8 * w.eeprom (d._paramTableStartindex + calcParamSkipBytes d w (i : Int) + 2)
              + w.eeprom (d._paramTableStartindex + calcParamSkipBytes d w (i : Int) + 3) : Nat)
                : Int) - 2 ^ 32)) := by
  generalize ho : d._paramTableStartindex + calcParamSkipBytes d w (i : Int) = o
  have hcell : ∀ (t : Nat), t < getParamSize d w (i : Int) →
      getParamValue d w (i : Int) Buf.fresh t = some (w.eeprom (o + (t : Int))) := by
    intro t ht
    rw [getParamValue_apply d w (i : Int) Buf.fresh hi t, if_pos ht, ho]
    rfl
  have b0 := hbytes o
  have b1 := hbytes (o + 1)
  have b2 := hbytes (o + 2)
  have b3 := hbytes (o + 3)
  refine ⟨?_, ?_, ?_⟩
  · intro hs
    have c0 := hcell 0 (by omega)
    simp only [Nat.cast_zero, add_zero] at c0
    refine ⟨?_, ?_⟩
    · simp only [getUINT8Param, hs, PARAM_UINT8, ne_eq, not_true_eq_false, if_false, c0]
    · simp only [getINT8Param, hs, PARAM_INT8, ne_eq, not_true_eq_false, if_false, c0,
        Option.map_some', toSigned]
      congr 1
      have e : w.eeprom o % 2 ^ 8 = w.eeprom o := Nat.mod_eq_of_lt (by omega)
      rw [e]
  · intro hs
    have c0 := hcell 0 (by omega)
    have c1 := hcell 1 (by omega)
    simp only [Nat.cast_zero, add_zero, Nat.cast_one] at c0 c1
    refine ⟨?_, ?_⟩
    · simp only [getUINT16Param, hs, PARAM_UINT16, ne_eq, not_true_eq_false, if_false, c0, c1]
      congr 1
      omega
    · simp only [getINT16Param, hs, PARAM_INT16, ne_eq, not_true_eq_false, if_false, c0, c1,
        toSigned]
      congr 1
      have e : (w.eeprom o * 256 + w.eeprom (o + 1)) % 2 ^ 16
          = 256 * w.eeprom o + w.eeprom (o + 1) := by omega
      rw [e]
  · intro hs
    have c0 := hcell 0 (by omega)
    have c1 := hcell 1 (by omega)
    have c2 := hcell 2 (by omega)
    have c3 := hcell 3 (by omega)
    simp only [Nat.cast_zero, add_zero, Nat.cast_one, Nat.cast_ofNat] at c0 c1 c2 c3
    refine ⟨?_, ?_⟩
    · simp only [getUINT32Param, hs, PARAM_UINT32, ne_eq, not_true_eq_false, if_false, c0, c1,
        c2, c3]
      congr 1
      omega
    · simp only [getINT32Param, hs, PARAM_INT32, ne_eq, not_true_eq_false, if_false, c0, c1,
        c2, c3, toSigned]
      congr 1
      have e : (w.eeprom o * 2 ^ 24 + w.eeprom (o + 1) * 2 ^ 16 + w.eeprom (o + 2) * 2 ^ 8
            + w.eeprom (o + 3)) % 2 ^ 32
          = 2 ^ 24 * w.eeprom o + 2 ^ 16 * w.eeprom (o + 1) + 2 ^ 8 * w.eeprom (o + 2)
            + w.eeprom (o + 3) := by omega
      rw [e]

/-- C29 at the input of the claim: the bytes `0xFF, 0xFE` of parameter 1 give
`-2` for `getINT16Param` and 65534 for `getUINT16Param`. -/
theorem C29_big_endian_decoding_witness :
    ((1 : Nat) : Int) < paramDevice._numberOfParams ∧
    getParamSize paramDevice paramWorld ((1 : Nat) : Int) = 2 ∧
    paramWorld.eeprom (paramDevice._paramTableStartindex
      + calcParamSkipBytes paramDevice paramWorld ((1 : Nat) : Int)) = 0xFF ∧
    paramWorld.eeprom (paramDevice._paramTableStartindex
      + calcParamSkipBytes paramDevice paramWorld ((1 : Nat) : Int) + 1) = 0xFE ∧
    getUINT16Param paramDevice paramWorld ((1 : Nat) : Int)
      = some (256 * paramWorld.eeprom (paramDevice._paramTableStartindex
            + calcParamSkipBytes paramDevice paramWorld ((1 : Nat) : Int))
          + paramWorld.eeprom (paramDevice._paramTableStartindex
            + calcParamSkipBytes paramDevice paramWorld ((1 : Nat) : Int) + 1)) ∧
    getINT16Param paramDevice paramWorld ((1 : Nat) : Int) = some (-2) :=
  ⟨by decide, by decide, by decide, by decide,
   ((C29_big_endian_decoding paramDevice paramWorld 1 (by decide)
      paramWorld_bytes).2.1 (by decide)).1,
   by decide⟩

end Konnekting
